import Mathlib

/-!
Frame hand-off and render submission of `Engine/Graphics/Graphics.cpp`

A shallow embedding of the double-buffered submission pipeline of
`eae6320::Graphics`: the file-scope statics become the record `State`, every
call the module makes on a collaborator (view, constant buffers, effects,
meshes, sprites, textures, logging) is appended to `State.calls`, and the
functions of the translation unit become functions on `State`.

Scalars (`float`) are values of a type `F`; where they are compared `F` carries
a linear order, i.e. the depth keys are NaN-free.  Vectors, quaternions,
matrices and the part of a rigid body that only the physics code reads are the
types `V`, `Q`, `M`, `D`.  The math, physics and effect helpers that the module
calls and that live in other translation units are the fields of `Externals`.
-/

namespace eae6320
namespace Graphics

/-! ## Data model -/

/-- A reference-counted drawable resource, named by the kind of pointer that
refers to it and its handle. -/
inductive Resource where
  | effect (h : Nat)
  | mesh (h : Nat)
  | sprite (h : Nat)
  | texture (h : Nat)
  deriving DecidableEq, Repr

/-- The rigid body state `Physics::sRigidBodyState`: the two fields the module
assigns, and the remaining fields (velocities, accelerations) that only the
prediction functions read. -/
structure sRigidBodyState (V Q D : Type) where
  position : V
  orientation : Q
  dynamics : D
  deriving DecidableEq, Repr

/-- The mesh draw entry `Graphics::meshData`. -/
structure meshData (V Q D : Type) where
  effect : Nat
  mesh : Nat
  texture : Nat
  rigidBodyState : sRigidBodyState V Q D
  deriving DecidableEq, Repr

/-- The sprite draw entry `Graphics::renderData`. -/
structure renderData where
  effect : Nat
  sprite : Nat
  texture : Nat
  deriving DecidableEq, Repr

/-- The camera `Graphics::cCamera`, as far as `SubmitCamera` reads it. -/
structure cCamera (F V Q D : Type) where
  m_rigidBodyState : sRigidBodyState V Q D
  m_verticalFieldOfView_inRadians : F
  m_aspectRatio : F
  m_z_nearPlane : F
  m_z_farPlane : F
  deriving DecidableEq, Repr

/-- The per-frame constants `ConstantBufferFormats::sPerFrame`. -/
structure sPerFrame (F M : Type) where
  g_transform_worldToCamera : M
  g_transform_cameraToProjected : M
  g_elapsedSecondCount_systemTime : F
  g_elapsedSecondCount_simulationTime : F
  deriving DecidableEq, Repr

/-- The per-draw constants `ConstantBufferFormats::sPerDrawCall`. -/
structure sPerDrawCall (M : Type) where
  g_transform_localToWorld : M
  deriving DecidableEq, Repr

/-- The snapshot `sDataRequiredToRenderAFrame`; `backgroundColor[0..3]` are the
four fields `backgroundColor_0` .. `backgroundColor_3`. -/
structure sDataRequiredToRenderAFrame (F V Q M D : Type) where
  constantData_perFrame : sPerFrame F M
  constantData_perDraw : sPerDrawCall M
  backgroundColor_0 : F
  backgroundColor_1 : F
  backgroundColor_2 : F
  backgroundColor_3 : F
  renderDataVec : List renderData
  meshDataVec : List (meshData V Q D)
  meshTranslucentDataVec : List (meshData V Q D)
  deriving DecidableEq, Repr

/-- A call the module makes on one of its collaborators. -/
inductive Call (F M : Type) where
  | clear (r g b a : F)
  | updatePerFrame (d : sPerFrame F M)
  | updatePerDraw (d : sPerDrawCall M)
  | bindEffect (h : Nat)
  | bindTexture (h : Nat)
  | drawMesh (h : Nat)
  | drawSprite (h : Nat)
  | buffer
  | inc (r : Resource)
  | dec (r : Resource)
  | logError
  | userPrint
  | cleanUpView
  | cleanUpRest
  deriving DecidableEq, Repr

/-- The functions of other translation units that the module calls. -/
structure Externals (F V Q M D : Type) where
  IsAlphaTransparencyEnabled : Nat → Bool
  PredictFutureOrientation : sRigidBodyState V Q D → F → Q
  PredictFuturePosition : sRigidBodyState V Q D → F → V
  cMatrix_transformation : Q → V → M
  mul : M → M → M
  GetTranslation_z : M → F
  CreateWorldToCameraTransform : Q → V → M
  CreateCameraToProjectedTransform_perspective : F → F → F → F → M

/-- The file-scope state: the array `s_dataRequiredToRenderAFrame[2]`, the two
pointers into it (as indices), and the calls issued so far. -/
structure State (F V Q M D : Type) where
  s_dataRequiredToRenderAFrame : Fin 2 → sDataRequiredToRenderAFrame F V Q M D
  s_dataBeingSubmittedByApplicationThread : Fin 2
  s_dataBeingRenderedByRenderThread : Fin 2
  calls : List (Call F M)

section Model

variable {F V Q M D : Type}

namespace State

/-- The snapshot `*s_dataBeingSubmittedByApplicationThread`. -/
def submitted (s : State F V Q M D) : sDataRequiredToRenderAFrame F V Q M D :=
  s.s_dataRequiredToRenderAFrame s.s_dataBeingSubmittedByApplicationThread

/-- The snapshot `*s_dataBeingRenderedByRenderThread`. -/
def rendered (s : State F V Q M D) : sDataRequiredToRenderAFrame F V Q M D :=
  s.s_dataRequiredToRenderAFrame s.s_dataBeingRenderedByRenderThread

/-- Store through the pointer with index `i`. -/
def store (s : State F V Q M D) (i : Fin 2)
    (d : sDataRequiredToRenderAFrame F V Q M D) : State F V Q M D :=
  { s with s_dataRequiredToRenderAFrame := Function.update s.s_dataRequiredToRenderAFrame i d }

/-- Store through `s_dataBeingSubmittedByApplicationThread`. -/
def setSubmitted (s : State F V Q M D)
    (d : sDataRequiredToRenderAFrame F V Q M D) : State F V Q M D :=
  s.store s.s_dataBeingSubmittedByApplicationThread d

/-- Store through `s_dataBeingRenderedByRenderThread`. -/
def setRendered (s : State F V Q M D)
    (d : sDataRequiredToRenderAFrame F V Q M D) : State F V Q M D :=
  s.store s.s_dataBeingRenderedByRenderThread d

/-- Record calls made on collaborators, in order. -/
def emit (s : State F V Q M D) (cs : List (Call F M)) : State F V Q M D :=
  { s with calls := s.calls ++ cs }

end State

/-! ## Submission -/

/-- `SubmitElapsedTime` (lines 90-99). -/
def SubmitElapsedTime (i_elapsedSecondCount_systemTime i_elapsedSecondCount_simulationTime : F)
    (s : State F V Q M D) : State F V Q M D :=
  let d := s.submitted
  s.setSubmitted { d with
    constantData_perFrame := { d.constantData_perFrame with
      g_elapsedSecondCount_systemTime := i_elapsedSecondCount_systemTime
      g_elapsedSecondCount_simulationTime := i_elapsedSecondCount_simulationTime } }

/-- `SubmitBackgroundColor` (lines 102-107). -/
def SubmitBackgroundColor (r g b a : F) (s : State F V Q M D) : State F V Q M D :=
  let s1 := s.setSubmitted { s.submitted with backgroundColor_0 := r }
  let s2 := s1.setSubmitted { s1.submitted with backgroundColor_1 := g }
  let s3 := s2.setSubmitted { s2.submitted with backgroundColor_2 := b }
  s3.setSubmitted { s3.submitted with backgroundColor_3 := a }

/-- `SubmitEffectAndSprite` (lines 108-115). -/
def SubmitEffectAndSprite (data : renderData) (s : State F V Q M D) : State F V Q M D :=
  let s1 := s.emit [Call.inc (Resource.effect data.effect)]
  let s2 := s1.emit [Call.inc (Resource.sprite data.sprite)]
  let s3 := s2.emit [Call.inc (Resource.texture data.texture)]
  s3.setSubmitted { s3.submitted with renderDataVec := s3.submitted.renderDataVec ++ [data] }

/-- The value of `data` after lines 126-127 of `SubmitEffectAndMesh`: the pose is
replaced by the pose predicted from `rigidBodyState`, the orientation first, the
position second (`rigidBodyState` is an object of its own, not `data.rigidBodyState`). -/
def predictedData (x : Externals F V Q M D) (t : F) (data : meshData V Q D)
    (rigidBodyState : sRigidBodyState V Q D) : meshData V Q D :=
  let data1 := { data with rigidBodyState := { data.rigidBodyState with
    orientation := x.PredictFutureOrientation rigidBodyState t } }
  { data1 with rigidBodyState := { data1.rigidBodyState with
    position := x.PredictFuturePosition rigidBodyState t } }

/-- `SubmitEffectAndMesh` (lines 117-137). -/
def SubmitEffectAndMesh (x : Externals F V Q M D) (data : meshData V Q D)
    (rigidBodyState : sRigidBodyState V Q D) (s : State F V Q M D) : State F V Q M D :=
  let constantData_perFrame := s.submitted.constantData_perFrame
  let s1 := s.emit [Call.inc (Resource.effect data.effect)]
  let s2 := s1.emit [Call.inc (Resource.mesh data.mesh)]
  let s3 := s2.emit [Call.inc (Resource.texture data.texture)]
  let data1 := predictedData x constantData_perFrame.g_elapsedSecondCount_simulationTime
    data rigidBodyState
  if x.IsAlphaTransparencyEnabled data1.effect then
    s3.setSubmitted { s3.submitted with
      meshTranslucentDataVec := s3.submitted.meshTranslucentDataVec ++ [data1] }
  else
    s3.setSubmitted { s3.submitted with
      meshDataVec := s3.submitted.meshDataVec ++ [data1] }

/-- `SubmitCamera` (lines 139-163). -/
def SubmitCamera (x : Externals F V Q M D) (camera : cCamera F V Q D)
    (s : State F V Q M D) : State F V Q M D :=
  let d := s.submitted
  let t := d.constantData_perFrame.g_elapsedSecondCount_simulationTime
  let orientation := x.PredictFutureOrientation camera.m_rigidBodyState t
  let position := x.PredictFuturePosition camera.m_rigidBodyState t
  let perFrame1 := { d.constantData_perFrame with
    g_transform_worldToCamera := x.CreateWorldToCameraTransform orientation position }
  let perFrame2 := { perFrame1 with
    g_transform_cameraToProjected := x.CreateCameraToProjectedTransform_perspective
      camera.m_verticalFieldOfView_inRadians camera.m_aspectRatio
      camera.m_z_nearPlane camera.m_z_farPlane }
  s.setSubmitted { d with constantData_perFrame := perFrame2 }

/-! ## Render -/

/-- The comparison `std::pair<float, size_t>::operator<` that `std::sort` uses on
`translucentVecToSort`: first components first, second components on a tie. -/
def pairLt [LinearOrder F] (a b : F × Nat) : Prop :=
  a.1 < b.1 ∨ (¬ b.1 < a.1 ∧ a.2 < b.2)

instance pairLt_decidable [LinearOrder F] : DecidableRel (pairLt : F × Nat → F × Nat → Prop) :=
  fun a b => by unfold pairLt; infer_instance

/-- The order `std::sort` establishes: no later element is `operator<` an earlier one. -/
def pairNotGt [LinearOrder F] (a b : F × Nat) : Prop := ¬ pairLt b a

instance pairNotGt_decidable [LinearOrder F] :
    DecidableRel (pairNotGt : F × Nat → F × Nat → Prop) :=
  fun a b => by unfold pairNotGt; infer_instance

/-- `std::sort(begin, end)` of line 256.  The library routine is specified by its
result, a rearrangement of the input in which no element is `operator<` one before
it; `stdSort_unique` shows there is one such list, computed here by insertion. -/
def stdSort [LinearOrder F] (v : List (F × Nat)) : List (F × Nat) :=
  v.insertionSort pairNotGt

/-- The matrix `cMatrix_transformation(orientation, position)` of a draw entry. -/
def localToWorld (x : Externals F V Q M D) (data : meshData V Q D) : M :=
  x.cMatrix_transformation data.rigidBodyState.orientation data.rigidBodyState.position

/-- Lines 228-237 and 261-270: the body of both mesh drawing loops. -/
def drawMeshStep (x : Externals F V Q M D) (s : State F V Q M D) (data : meshData V Q D) :
    State F V Q M D :=
  let s1 := s.setRendered { s.rendered with
    constantData_perDraw := { g_transform_localToWorld := localToWorld x data } }
  s1.emit [Call.updatePerDraw s1.rendered.constantData_perDraw,
    Call.bindEffect data.effect, Call.bindTexture data.texture, Call.drawMesh data.mesh]

/-- Lines 243-253: the body of the loop that fills `translucentVecToSort`. -/
def depthKeyStep (x : Externals F V Q M D) (acc : State F V Q M D × List (F × Nat))
    (e : Nat × meshData V Q D) : State F V Q M D × List (F × Nat) :=
  let s := acc.1
  let s1 := s.setRendered { s.rendered with
    constantData_perDraw := { g_transform_localToWorld := localToWorld x e.2 } }
  let dataCameraSpaceTransform :=
    x.mul s1.rendered.constantData_perFrame.g_transform_worldToCamera
      s1.rendered.constantData_perDraw.g_transform_localToWorld
  let dataZPosition := x.GetTranslation_z dataCameraSpaceTransform
  (s1, acc.2 ++ [(dataZPosition, e.1)])

/-- Lines 259-270: the body of the loop over the sorted pairs; the entry is read
from `meshTranslucentDataVec` at the index the pair carries. -/
def drawTranslucentStep (x : Externals F V Q M D) (s : State F V Q M D) (p : F × Nat) :
    State F V Q M D :=
  match s.rendered.meshTranslucentDataVec[p.2]? with
  | some data => drawMeshStep x s data
  | none => s

/-- Lines 274-276: the body of the sprite drawing loop. -/
def drawSpriteStep (s : State F V Q M D) (data : renderData) : State F V Q M D :=
  s.emit [Call.bindEffect data.effect, Call.bindTexture data.texture,
    Call.drawSprite data.sprite]

/-- Lines 284-286: the body of the loop releasing the opaque entries. -/
def releaseMeshStep (s : State F V Q M D) (data : meshData V Q D) : State F V Q M D :=
  s.emit [Call.dec (Resource.effect data.effect), Call.dec (Resource.mesh data.mesh),
    Call.dec (Resource.texture data.texture)]

/-- Lines 291-293: the body of the loop releasing the sprite entries. -/
def releaseSpriteStep (s : State F V Q M D) (data : renderData) : State F V Q M D :=
  s.emit [Call.dec (Resource.effect data.effect), Call.dec (Resource.texture data.texture),
    Call.dec (Resource.sprite data.sprite)]

/-- Line 187: `std::swap` of the two pointers. -/
def swapPointers (s : State F V Q M D) : State F V Q M D :=
  { s with
    s_dataBeingSubmittedByApplicationThread := s.s_dataBeingRenderedByRenderThread
    s_dataBeingRenderedByRenderThread := s.s_dataBeingSubmittedByApplicationThread }

/-- Lines 192-196 and 201-205: the diagnostics of a failed wait or signal (the
assertion is compiled out of release builds and is not recorded). -/
def reportFailure (s : State F V Q M D) : State F V Q M D :=
  s.emit [Call.logError, Call.userPrint]

/-- Lines 212-223: clear the view and update the per-frame constant buffer. -/
def clearAndUpdate (s : State F V Q M D) : State F V Q M D :=
  let s1 := s.emit [Call.clear s.rendered.backgroundColor_0 s.rendered.backgroundColor_1
    s.rendered.backgroundColor_2 s.rendered.backgroundColor_3]
  s1.emit [Call.updatePerFrame s1.rendered.constantData_perFrame]

/-- Lines 226-238: draw the opaque meshes. -/
def drawOpaque (x : Externals F V Q M D) (s : State F V Q M D) : State F V Q M D :=
  s.rendered.meshDataVec.foldl (drawMeshStep x) s

/-- Lines 241-271: compute the depth keys, sort them, draw the translucent meshes. -/
def drawTranslucent [LinearOrder F] (x : Externals F V Q M D) (s : State F V Q M D) :
    State F V Q M D :=
  let r := s.rendered.meshTranslucentDataVec.enum.foldl (depthKeyStep x) (s, [])
  (stdSort r.2).foldl (drawTranslucentStep x) r.1

/-- Lines 273-278: draw the sprites and present. -/
def drawSpritesAndBuffer (s : State F V Q M D) : State F V Q M D :=
  (s.rendered.renderDataVec.foldl drawSpriteStep s).emit [Call.buffer]

/-- Lines 282-297: release and clear the opaque list, then the sprite list. -/
def release (s : State F V Q M D) : State F V Q M D :=
  let s1 := s.rendered.meshDataVec.foldl releaseMeshStep s
  let s2 := s1.setRendered { s1.rendered with meshDataVec := [] }
  let s3 := s2.rendered.renderDataVec.foldl releaseSpriteStep s2
  s3.setRendered { s3.rendered with renderDataVec := [] }

/-- `RenderFrame` (lines 178-298).  `waitResult` is the result of waiting for
`s_whenAllDataHasBeenSubmittedFromApplicationThread`, `signalResult` the result of
signalling `s_whenDataForANewFrameCanBeSubmittedFromApplicationThread`. -/
def RenderFrame [LinearOrder F] (x : Externals F V Q M D) (waitResult signalResult : Bool)
    (s : State F V Q M D) : State F V Q M D :=
  if waitResult then
    let s1 := swapPointers s
    if !signalResult then
      reportFailure s1
    else
      release (drawSpritesAndBuffer (drawTranslucent x (drawOpaque x (clearAndUpdate s1))))
  else
    reportFailure s

/-! ## Clean up -/

/-- Lines 403-405 and 410-412: the bodies of the two loops over sprites. -/
def cleanUpSpriteStep (s : State F V Q M D) (data : renderData) : State F V Q M D :=
  s.emit [Call.dec (Resource.effect data.effect), Call.dec (Resource.texture data.texture),
    Call.dec (Resource.sprite data.sprite)]

/-- Lines 418-420 and 433-435: the loops over the meshes of the rendered snapshot. -/
def cleanUpRenderedMeshStep (s : State F V Q M D) (data : meshData V Q D) : State F V Q M D :=
  s.emit [Call.dec (Resource.effect data.effect), Call.dec (Resource.texture data.texture),
    Call.dec (Resource.mesh data.mesh)]

/-- Lines 425-427 and 440-442: the loops over the meshes of the submitted snapshot. -/
def cleanUpSubmittedMeshStep (s : State F V Q M D) (data : meshData V Q D) : State F V Q M D :=
  s.emit [Call.dec (Resource.effect data.effect), Call.dec (Resource.mesh data.mesh),
    Call.dec (Resource.texture data.texture)]

/-- `CleanUp` (lines 395-508): the view, the six draw lists, then the constant
buffers, sampler state, shader manager and context (one recorded call). -/
def CleanUp (s : State F V Q M D) : State F V Q M D :=
  let s0 := s.emit [Call.cleanUpView]
  let s1 := s0.rendered.renderDataVec.foldl cleanUpSpriteStep s0
  let s2 := s1.setRendered { s1.rendered with renderDataVec := [] }
  let s3 := s2.submitted.renderDataVec.foldl cleanUpSpriteStep s2
  let s4 := s3.setSubmitted { s3.submitted with renderDataVec := [] }
  let s5 := s4.rendered.meshDataVec.foldl cleanUpRenderedMeshStep s4
  let s6 := s5.setRendered { s5.rendered with meshDataVec := [] }
  let s7 := s6.submitted.meshDataVec.foldl cleanUpSubmittedMeshStep s6
  let s8 := s7.setSubmitted { s7.submitted with meshDataVec := [] }
  let s9 := s8.rendered.meshTranslucentDataVec.foldl cleanUpRenderedMeshStep s8
  let s10 := s9.setRendered { s9.rendered with meshTranslucentDataVec := [] }
  let s11 := s10.submitted.meshTranslucentDataVec.foldl cleanUpSubmittedMeshStep s10
  let s12 := s11.setSubmitted { s11.submitted with meshTranslucentDataVec := [] }
  s12.emit [Call.cleanUpRest]

/-! ## Runs and reference counts -/

/-- A snapshot as the static initialisation leaves its vectors: empty. -/
def emptyFrame (d : sDataRequiredToRenderAFrame F V Q M D) :
    sDataRequiredToRenderAFrame F V Q M D :=
  { d with renderDataVec := [], meshDataVec := [], meshTranslucentDataVec := [] }

/-- The state after static initialisation (lines 69-71): the submit pointer is
`&s_dataRequiredToRenderAFrame[0]`, the render pointer `&s_dataRequiredToRenderAFrame[1]`,
the vectors are empty; the scalar fields are whatever `d0`, `d1` hold. -/
def initialState (d0 d1 : sDataRequiredToRenderAFrame F V Q M D) : State F V Q M D :=
  { s_dataRequiredToRenderAFrame := fun i => if i = 0 then emptyFrame d0 else emptyFrame d1
    s_dataBeingSubmittedByApplicationThread := 0
    s_dataBeingRenderedByRenderThread := 1
    calls := [] }

/-- One call into the module from either thread. -/
inductive Op (F V Q D : Type) where
  | SubmitElapsedTime (systemTime simulationTime : F)
  | SubmitBackgroundColor (r g b a : F)
  | SubmitEffectAndSprite (data : renderData)
  | SubmitEffectAndMesh (data : meshData V Q D) (rigidBodyState : sRigidBodyState V Q D)
  | SubmitCamera (camera : cCamera F V Q D)
  | RenderFrame (waitResult signalResult : Bool)

/-- Perform one call. -/
def Op.apply [LinearOrder F] (x : Externals F V Q M D) (o : Op F V Q D)
    (s : State F V Q M D) : State F V Q M D :=
  match o with
  | Op.SubmitElapsedTime a b => Graphics.SubmitElapsedTime a b s
  | Op.SubmitBackgroundColor r g b a => Graphics.SubmitBackgroundColor r g b a s
  | Op.SubmitEffectAndSprite data => Graphics.SubmitEffectAndSprite data s
  | Op.SubmitEffectAndMesh data rb => Graphics.SubmitEffectAndMesh x data rb s
  | Op.SubmitCamera camera => Graphics.SubmitCamera x camera s
  | Op.RenderFrame w g => Graphics.RenderFrame x w g s

/-- Perform a sequence of calls, first to last. -/
def run [LinearOrder F] (x : Externals F V Q M D) (ops : List (Op F V Q D))
    (s : State F V Q M D) : State F V Q M D :=
  ops.foldl (fun st o => o.apply x st) s

/-- The change one recorded call makes to the reference count of `r`. -/
def refDelta (r : Resource) : Call F M → Int
  | Call.inc r1 => if r1 = r then 1 else 0
  | Call.dec r1 => if r1 = r then -1 else 0
  | _ => 0

/-- Modelled from the spec: `IncrementReferenceCount` and `DecrementReferenceCount`
are defined outside this translation unit; following the spec's resource
lifetime tracker each call moves the count of its resource by one, so the count
of `r` after `calls` is its starting value `c0 r` plus increments minus decrements. -/
def refCount (c0 : Resource → Int) (calls : List (Call F M)) (r : Resource) : Int :=
  c0 r + (calls.map (refDelta r)).sum

/-- The resources a mesh entry refers to. -/
def meshData.resources (d : meshData V Q D) : List Resource :=
  [Resource.effect d.effect, Resource.mesh d.mesh, Resource.texture d.texture]

/-- The resources a sprite entry refers to. -/
def renderData.resources (d : renderData) : List Resource :=
  [Resource.effect d.effect, Resource.sprite d.sprite, Resource.texture d.texture]

/-- The calls issued between an earlier state and a later one. -/
def callsSince (s s1 : State F V Q M D) : List (Call F M) :=
  s1.calls.drop s.calls.length

/-! ## The calls and the snapshot of a rendered frame -/

/-- The per-draw constants after a mesh drawing loop over `l` that started from `p`. -/
def lastPerDraw (x : Externals F V Q M D) (p : sPerDrawCall M) (l : List (meshData V Q D)) :
    sPerDrawCall M :=
  l.foldl (fun _ data => { g_transform_localToWorld := localToWorld x data }) p

/-- The calls one mesh draw issues. -/
def meshDrawCalls (x : Externals F V Q M D) (data : meshData V Q D) : List (Call F M) :=
  [Call.updatePerDraw { g_transform_localToWorld := localToWorld x data },
    Call.bindEffect data.effect, Call.bindTexture data.texture, Call.drawMesh data.mesh]

/-- The calls one sprite draw issues. -/
def spriteDrawCalls (data : renderData) : List (Call F M) :=
  [Call.bindEffect data.effect, Call.bindTexture data.texture, Call.drawSprite data.sprite]

/-- The camera-space depth of an entry (lines 248-252). -/
def depthKey (x : Externals F V Q M D) (perFrame : sPerFrame F M) (data : meshData V Q D) : F :=
  x.GetTranslation_z (x.mul perFrame.g_transform_worldToCamera (localToWorld x data))

/-- The contents of `translucentVecToSort` before sorting. -/
def depthKeys (x : Externals F V Q M D) (d : sDataRequiredToRenderAFrame F V Q M D) :
    List (F × Nat) :=
  d.meshTranslucentDataVec.enum.map (fun e => (depthKey x d.constantData_perFrame e.2, e.1))

/-- The translucent entries in the order in which `drawTranslucent` draws them. -/
def translucentDrawOrder [LinearOrder F] (x : Externals F V Q M D)
    (d : sDataRequiredToRenderAFrame F V Q M D) : List (meshData V Q D) :=
  (stdSort (depthKeys x d)).filterMap (fun p => d.meshTranslucentDataVec[p.2]?)

/-- The calls that release one mesh entry in `RenderFrame`. -/
def meshReleaseCalls (data : meshData V Q D) : List (Call F M) :=
  [Call.dec (Resource.effect data.effect), Call.dec (Resource.mesh data.mesh),
    Call.dec (Resource.texture data.texture)]

/-- The calls that release one sprite entry in `RenderFrame`. -/
def spriteReleaseCalls (data : renderData) : List (Call F M) :=
  [Call.dec (Resource.effect data.effect), Call.dec (Resource.texture data.texture),
    Call.dec (Resource.sprite data.sprite)]

/-- The calls of a `RenderFrame` that renders the snapshot `d`, in order. -/
def renderCalls [LinearOrder F] (x : Externals F V Q M D)
    (d : sDataRequiredToRenderAFrame F V Q M D) : List (Call F M) :=
  [Call.clear d.backgroundColor_0 d.backgroundColor_1 d.backgroundColor_2 d.backgroundColor_3,
    Call.updatePerFrame d.constantData_perFrame]
  ++ d.meshDataVec.flatMap (meshDrawCalls x)
  ++ (translucentDrawOrder x d).flatMap (meshDrawCalls x)
  ++ d.renderDataVec.flatMap spriteDrawCalls
  ++ [Call.buffer]
  ++ d.meshDataVec.flatMap meshReleaseCalls
  ++ d.renderDataVec.flatMap spriteReleaseCalls

/-- The snapshot `d` after a `RenderFrame` that rendered it. -/
def renderedAfter [LinearOrder F] (x : Externals F V Q M D)
    (d : sDataRequiredToRenderAFrame F V Q M D) : sDataRequiredToRenderAFrame F V Q M D :=
  { d with
    constantData_perDraw :=
      lastPerDraw x (lastPerDraw x (lastPerDraw x d.constantData_perDraw d.meshDataVec)
        d.meshTranslucentDataVec) (translucentDrawOrder x d)
    meshDataVec := []
    renderDataVec := [] }

/-- The translucent entries in drawing order, each with its position in
`meshTranslucentDataVec` (its submission position). -/
def translucentDrawIndexed [LinearOrder F] (x : Externals F V Q M D)
    (d : sDataRequiredToRenderAFrame F V Q M D) : List (Nat × meshData V Q D) :=
  (stdSort (depthKeys x d)).filterMap
    (fun p => (d.meshTranslucentDataVec[p.2]?).map (fun e => (p.2, e)))

/-! ## Held references -/

/-- The net change `calls` make to the reference count of `r`. -/
def netCount (r : Resource) (calls : List (Call F M)) : Int :=
  (calls.map (refDelta r)).sum

/-- How many times the entries of the three draw lists of `d` refer to `r`. -/
def frameHeld (d : sDataRequiredToRenderAFrame F V Q M D) (r : Resource) : Nat :=
  (d.renderDataVec.flatMap renderData.resources).count r
  + (d.meshDataVec.flatMap meshData.resources).count r
  + (d.meshTranslucentDataVec.flatMap meshData.resources).count r

/-- How many times the entries of the six draw lists refer to `r`. -/
def heldCount (s : State F V Q M D) (r : Resource) : Nat :=
  frameHeld (s.s_dataRequiredToRenderAFrame 0) r + frameHeld (s.s_dataRequiredToRenderAFrame 1) r

/-- The two pointers refer to different snapshots, and the issued increments
minus the issued decrements of every resource equal the number of references
to it that the six draw lists hold. -/
def Balanced (s : State F V Q M D) : Prop :=
  s.s_dataBeingSubmittedByApplicationThread ≠ s.s_dataBeingRenderedByRenderThread
  ∧ ∀ r, netCount r s.calls = (heldCount s r : Int)

/-- The calls that release one mesh entry of the rendered snapshot in `CleanUp`. -/
def meshCleanUpCalls (data : meshData V Q D) : List (Call F M) :=
  [Call.dec (Resource.effect data.effect), Call.dec (Resource.texture data.texture),
    Call.dec (Resource.mesh data.mesh)]

/-- The calls of `CleanUp` that release the six draw lists, in order. -/
def cleanUpCalls (s : State F V Q M D) : List (Call F M) :=
  s.rendered.renderDataVec.flatMap spriteReleaseCalls
  ++ s.submitted.renderDataVec.flatMap spriteReleaseCalls
  ++ s.rendered.meshDataVec.flatMap meshCleanUpCalls
  ++ s.submitted.meshDataVec.flatMap meshReleaseCalls
  ++ s.rendered.meshTranslucentDataVec.flatMap meshCleanUpCalls
  ++ s.submitted.meshTranslucentDataVec.flatMap meshReleaseCalls

/-! ## Kinds of calls -/

/-- Whether a call is a draw call (`DrawMesh` or `Draw`). -/
def Call.isDraw : Call F M → Bool
  | Call.drawMesh _ => true
  | Call.drawSprite _ => true
  | _ => false

/-- Whether a call is `DecrementReferenceCount`. -/
def Call.isDec : Call F M → Bool
  | Call.dec _ => true
  | _ => false

/-- Whether a call is the view's `Clear`. -/
def Call.isClear : Call F M → Bool
  | Call.clear _ _ _ _ => true
  | _ => false

/-- Whether a call belongs to rendering a frame: a clear, a constant-buffer
update, a bind, a draw, the present, or a reference-count decrement. -/
def Call.isFrameWork : Call F M → Bool
  | Call.clear _ _ _ _ => true
  | Call.updatePerFrame _ => true
  | Call.updatePerDraw _ => true
  | Call.bindEffect _ => true
  | Call.bindTexture _ => true
  | Call.drawMesh _ => true
  | Call.drawSprite _ => true
  | Call.buffer => true
  | Call.dec _ => true
  | _ => false

/-! ## Worked examples -/

/-- Externals for the worked examples: scalars are integers, a position is its
camera-space depth, a transform is a translation along the depth axis (its
product is the sum), and the effects with an odd handle are the translucent ones. -/
def exampleExternals : Externals Int Int Unit Int Unit :=
  { IsAlphaTransparencyEnabled := fun h => h % 2 == 1
    PredictFutureOrientation := fun rb _ => rb.orientation
    PredictFuturePosition := fun rb _ => rb.position
    cMatrix_transformation := fun _ p => p
    mul := fun a b => a + b
    GetTranslation_z := fun m => m
    CreateWorldToCameraTransform := fun _ p => -p
    CreateCameraToProjectedTransform_perspective := fun _ _ _ _ => 0 }

/-- A snapshot with all scalars zero and empty lists. -/
def exampleFrame : sDataRequiredToRenderAFrame Int Int Unit Int Unit :=
  { constantData_perFrame :=
      { g_transform_worldToCamera := 0, g_transform_cameraToProjected := 0,
        g_elapsedSecondCount_systemTime := 0, g_elapsedSecondCount_simulationTime := 0 }
    constantData_perDraw := { g_transform_localToWorld := 0 }
    backgroundColor_0 := 0, backgroundColor_1 := 0, backgroundColor_2 := 0,
    backgroundColor_3 := 0
    renderDataVec := [], meshDataVec := [], meshTranslucentDataVec := [] }

/-- A mesh entry at rest at depth `z`. -/
def exampleMesh (effect mesh texture : Nat) (z : Int) : meshData Int Unit Unit :=
  { effect := effect, mesh := mesh, texture := texture
    rigidBodyState := { position := z, orientation := (), dynamics := () } }

/-- The submission of `exampleMesh effect mesh texture z`. -/
def submitExampleMesh (effect mesh texture : Nat) (z : Int) : Op Int Int Unit Unit :=
  Op.SubmitEffectAndMesh (exampleMesh effect mesh texture z)
    { position := z, orientation := (), dynamics := () }

/-- The state after one window in which three translucent meshes at depths
5, 1 and 3 were submitted, in this order. -/
def threeTranslucent : State Int Int Unit Int Unit :=
  run exampleExternals
    [submitExampleMesh 1 10 20 5, submitExampleMesh 1 11 20 1, submitExampleMesh 1 12 20 3]
    (initialState exampleFrame exampleFrame)

/-- The state after one window in which one translucent mesh was submitted. -/
def oneTranslucent : State Int Int Unit Int Unit :=
  run exampleExternals [submitExampleMesh 1 10 20 5] (initialState exampleFrame exampleFrame)

/-! ## Kinds of submissions -/

/-- Whether a call into the module is a submission other than
`SubmitBackgroundColor`, or a `RenderFrame` whose wait fails. -/
def Op.keepsBackgroundColor : Op F V Q D → Bool
  | Op.SubmitBackgroundColor _ _ _ _ => false
  | Op.RenderFrame waitResult _ => !waitResult
  | _ => true

/-- The four background colour channels of a snapshot, in index order. -/
def backgroundColor (d : sDataRequiredToRenderAFrame F V Q M D) : List F :=
  [d.backgroundColor_0, d.backgroundColor_1, d.backgroundColor_2, d.backgroundColor_3]

/-- A draw submission with its arguments: a call of `SubmitEffectAndMesh` or of
`SubmitEffectAndSprite`. -/
inductive DrawSubmission (V Q D : Type) where
  | mesh (data : meshData V Q D) (rigidBodyState : sRigidBodyState V Q D)
  | sprite (data : renderData)

/-- The call a draw submission stands for. -/
def DrawSubmission.toOp : DrawSubmission V Q D → Op F V Q D
  | DrawSubmission.mesh data rigidBodyState => Op.SubmitEffectAndMesh data rigidBodyState
  | DrawSubmission.sprite data => Op.SubmitEffectAndSprite data

/-- The entry a draw submission adds to the opaque list, if it adds one, when the
simulation time of the submit target is `t`. -/
def DrawSubmission.opaqueEntry (x : Externals F V Q M D) (t : F) :
    DrawSubmission V Q D → Option (meshData V Q D)
  | DrawSubmission.mesh data rigidBodyState =>
    if x.IsAlphaTransparencyEnabled data.effect then none
    else some (predictedData x t data rigidBodyState)
  | DrawSubmission.sprite _ => none

/-- The entry a draw submission adds to the translucent list, if it adds one, when
the simulation time of the submit target is `t`. -/
def DrawSubmission.translucentEntry (x : Externals F V Q M D) (t : F) :
    DrawSubmission V Q D → Option (meshData V Q D)
  | DrawSubmission.mesh data rigidBodyState =>
    if x.IsAlphaTransparencyEnabled data.effect then
      some (predictedData x t data rigidBodyState)
    else none
  | DrawSubmission.sprite _ => none

/-- The entry a draw submission adds to the sprite list, if it adds one. -/
def DrawSubmission.spriteEntry : DrawSubmission V Q D → Option renderData
  | DrawSubmission.mesh _ _ => none
  | DrawSubmission.sprite data => some data

/-! ## Reached states and the phases of a frame -/

/-- The state reached from the initial state by the calls `ops`. -/
def reached [LinearOrder F] (x : Externals F V Q M D)
    (d0 d1 : sDataRequiredToRenderAFrame F V Q M D) (ops : List (Op F V Q D)) :
    State F V Q M D :=
  run x ops (initialState d0 d1)

/-- The calls of a `RenderFrame` that renders the snapshot `d`, up to and
including the present (lines 212-278). -/
def drawPhaseCalls [LinearOrder F] (x : Externals F V Q M D)
    (d : sDataRequiredToRenderAFrame F V Q M D) : List (Call F M) :=
  [Call.clear d.backgroundColor_0 d.backgroundColor_1 d.backgroundColor_2 d.backgroundColor_3,
    Call.updatePerFrame d.constantData_perFrame]
  ++ d.meshDataVec.flatMap (meshDrawCalls x)
  ++ (translucentDrawOrder x d).flatMap (meshDrawCalls x)
  ++ d.renderDataVec.flatMap spriteDrawCalls
  ++ [Call.buffer]

/-- The calls of the release block of a `RenderFrame` that rendered the snapshot
`d` (lines 282-297). -/
def releaseCalls (d : sDataRequiredToRenderAFrame F V Q M D) : List (Call F M) :=
  d.meshDataVec.flatMap meshReleaseCalls ++ d.renderDataVec.flatMap spriteReleaseCalls

/-- The state of a `RenderFrame` whose wait and signal succeeded when it reaches
the release block (after line 278). -/
def beforeRelease [LinearOrder F] (x : Externals F V Q M D) (s : State F V Q M D) :
    State F V Q M D :=
  drawSpritesAndBuffer (drawTranslucent x (drawOpaque x (clearAndUpdate (swapPointers s))))

/-! ## The two events and the handshake -/

/-- Modelled from the spec: `Concurrency::cEvent` is declared outside this
translation unit.  Following the spec's synchronization signal it is a binary
state, signaled or unsignaled. -/
structure cEvent where
  signaled : Bool
  deriving DecidableEq, Repr

/-- Modelled from the spec: `Concurrency::WaitForEvent` on an auto-reset event.
A wait on a signaled event succeeds and resets the event to unsignaled as the
waiter is released; a wait on an unsignaled event fails when its time-out
passes (`timed`), and does not return (`none`) when it has no time-out. -/
def WaitForEvent (e : cEvent) (timed : Bool) : Option (Bool × cEvent) :=
  if e.signaled then some (true, { signaled := false })
  else if timed then some (false, e)
  else none

/-- Modelled from the spec: `cEvent::Signal`.  `result` is whether the call
succeeds; a successful call leaves the event signaled, a failed call leaves it
as it was. -/
def cEvent.Signal (e : cEvent) (result : Bool) : Bool × cEvent :=
  (result, if result then { signaled := true } else e)

/-- The file-scope state with the two events of lines 76 and 81. -/
structure System (F V Q M D : Type) where
  s_whenAllDataHasBeenSubmittedFromApplicationThread : cEvent
  s_whenDataForANewFrameCanBeSubmittedFromApplicationThread : cEvent
  graphics : State F V Q M D

/-- The events as `Initialize` leaves them (lines 366-372): the first is
initialised without a state argument, which the spec gives as unsignaled, the
second with `EventState::Signaled`; the rest of the state is as after static
initialisation. -/
def initialSystem (d0 d1 : sDataRequiredToRenderAFrame F V Q M D) : System F V Q M D :=
  { s_whenAllDataHasBeenSubmittedFromApplicationThread := { signaled := false }
    s_whenDataForANewFrameCanBeSubmittedFromApplicationThread := { signaled := true }
    graphics := initialState d0 d1 }

/-- `WaitUntilDataForANewFrameCanBeSubmitted` (lines 165-168): a timed wait for
`s_whenDataForANewFrameCanBeSubmittedFromApplicationThread`. -/
def WaitUntilDataForANewFrameCanBeSubmitted (sys : System F V Q M D) :
    Option (Bool × System F V Q M D) :=
  (WaitForEvent sys.s_whenDataForANewFrameCanBeSubmittedFromApplicationThread true).map
    (fun r => (r.1,
      { sys with s_whenDataForANewFrameCanBeSubmittedFromApplicationThread := r.2 }))

/-- `SignalThatAllDataForAFrameHasBeenSubmitted` (lines 170-173). -/
def SignalThatAllDataForAFrameHasBeenSubmitted (result : Bool) (sys : System F V Q M D) :
    Bool × System F V Q M D :=
  let r := sys.s_whenAllDataHasBeenSubmittedFromApplicationThread.Signal result
  (r.1, { sys with s_whenAllDataHasBeenSubmittedFromApplicationThread := r.2 })

/-- `RenderFrame` with its two events (lines 178-298): the wait of line 182 has no
time-out; when it is released the pointers are exchanged and
`s_whenDataForANewFrameCanBeSubmittedFromApplicationThread` is signalled, with
`signalResult` saying whether that call succeeds.  The result is `none` when
the wait does not return. -/
def RenderFrameWithEvents [LinearOrder F] (x : Externals F V Q M D) (signalResult : Bool)
    (sys : System F V Q M D) : Option (System F V Q M D) :=
  (WaitForEvent sys.s_whenAllDataHasBeenSubmittedFromApplicationThread false).map
    (fun w =>
      let sys1 := { sys with s_whenAllDataHasBeenSubmittedFromApplicationThread := w.2 }
      if w.1 then
        let r := sys1.s_whenDataForANewFrameCanBeSubmittedFromApplicationThread.Signal
          signalResult
        { sys1 with
          s_whenDataForANewFrameCanBeSubmittedFromApplicationThread := r.2
          graphics := RenderFrame x true r.1 sys1.graphics }
      else
        { sys1 with graphics := RenderFrame x false signalResult sys1.graphics })

/-- One call of the handshake, from either thread. -/
inductive GateOp where
  | WaitUntilDataForANewFrameCanBeSubmitted
  | SignalThatAllDataForAFrameHasBeenSubmitted (result : Bool)
  | RenderFrame (signalResult : Bool)
  deriving DecidableEq, Repr

/-- What a call of the handshake did: a producer wait and whether it succeeded,
a producer signal and whether it succeeded, a consumer wait that was released
(followed by the swap) and whether the signal after the swap succeeded, or a
consumer wait that was not released. -/
inductive GateEvent where
  | producerWait (succeeded : Bool)
  | producerSignal (succeeded : Bool)
  | consumerSwap (signalled : Bool)
  | consumerBlocked
  deriving DecidableEq, Repr

/-- Perform one call of the handshake; a wait that does not return leaves the
system as it is. -/
def GateOp.step [LinearOrder F] (x : Externals F V Q M D) (o : GateOp)
    (sys : System F V Q M D) : System F V Q M D × GateEvent :=
  match o with
  | GateOp.WaitUntilDataForANewFrameCanBeSubmitted =>
    match Graphics.WaitUntilDataForANewFrameCanBeSubmitted sys with
    | some r => (r.2, GateEvent.producerWait r.1)
    | none => (sys, GateEvent.producerWait false)
  | GateOp.SignalThatAllDataForAFrameHasBeenSubmitted result =>
    let r := Graphics.SignalThatAllDataForAFrameHasBeenSubmitted result sys
    (r.2, GateEvent.producerSignal r.1)
  | GateOp.RenderFrame signalResult =>
    match RenderFrameWithEvents x signalResult sys with
    | some sys1 => (sys1, GateEvent.consumerSwap signalResult)
    | none => (sys, GateEvent.consumerBlocked)

/-- The system after a sequence of calls of the handshake. -/
def gateRun [LinearOrder F] (x : Externals F V Q M D) :
    List GateOp → System F V Q M D → System F V Q M D
  | [], sys => sys
  | o :: ops, sys => gateRun x ops (o.step x sys).1

/-- What the calls of a sequence did, in order. -/
def gateEvents [LinearOrder F] (x : Externals F V Q M D) :
    List GateOp → System F V Q M D → List GateEvent
  | [], _ => []
  | o :: ops, sys => (o.step x sys).2 :: gateEvents x ops (o.step x sys).1

/-- Whether the producer keeps to its protocol in the run of `ops` from `sys`:
it calls `SignalThatAllDataForAFrameHasBeenSubmitted` only while it holds a
window, which it gets by a successful wait and gives up by the call.  `holds`
says whether it holds a window at the start. -/
def followsProducerProtocol [LinearOrder F] (x : Externals F V Q M D) :
    Bool → List GateOp → System F V Q M D → Bool
  | _, [], _ => true
  | holds, GateOp.WaitUntilDataForANewFrameCanBeSubmitted :: ops, sys =>
    followsProducerProtocol x
      (holds || (GateOp.WaitUntilDataForANewFrameCanBeSubmitted.step x sys).2
        == GateEvent.producerWait true)
      ops (GateOp.WaitUntilDataForANewFrameCanBeSubmitted.step x sys).1
  | holds, GateOp.SignalThatAllDataForAFrameHasBeenSubmitted result :: ops, sys =>
    holds && followsProducerProtocol x false ops
      ((GateOp.SignalThatAllDataForAFrameHasBeenSubmitted result).step x sys).1
  | holds, GateOp.RenderFrame signalResult :: ops, sys =>
    followsProducerProtocol x holds ops ((GateOp.RenderFrame signalResult).step x sys).1

/-- Whether in a list of events the successful producer waits and the consumer
swaps alternate; `producerNext` says which of the two must come first. -/
def alternates : Bool → List GateEvent → Bool
  | _, [] => true
  | producerNext, GateEvent.producerWait true :: l => producerNext && alternates false l
  | producerNext, GateEvent.consumerSwap _ :: l => !producerNext && alternates true l
  | producerNext, _ :: l => alternates producerNext l

/-- The two event states of a system: `SubmissionComplete`, `SwapComplete`. -/
def System.gate (sys : System F V Q M D) : Bool × Bool :=
  (sys.s_whenAllDataHasBeenSubmittedFromApplicationThread.signaled,
    sys.s_whenDataForANewFrameCanBeSubmittedFromApplicationThread.signaled)

/-- The effect of one call of the handshake on the two event states. -/
def GateOp.onGate : GateOp → Bool × Bool → (Bool × Bool) × GateEvent
  | GateOp.WaitUntilDataForANewFrameCanBeSubmitted, g => ((g.1, false), GateEvent.producerWait g.2)
  | GateOp.SignalThatAllDataForAFrameHasBeenSubmitted result, g =>
    ((g.1 || result, g.2), GateEvent.producerSignal result)
  | GateOp.RenderFrame signalResult, g =>
    if g.1 then ((false, g.2 || signalResult), GateEvent.consumerSwap signalResult)
    else (g, GateEvent.consumerBlocked)

/-! ## Basic facts about the state -/

namespace State

@[simp] theorem emit_calls (s : State F V Q M D) (cs : List (Call F M)) :
    (s.emit cs).calls = s.calls ++ cs := rfl

@[simp] theorem emit_data (s : State F V Q M D) (cs : List (Call F M)) :
    (s.emit cs).s_dataRequiredToRenderAFrame = s.s_dataRequiredToRenderAFrame := rfl

@[simp] theorem emit_submitPtr (s : State F V Q M D) (cs : List (Call F M)) :
    (s.emit cs).s_dataBeingSubmittedByApplicationThread
      = s.s_dataBeingSubmittedByApplicationThread := rfl

@[simp] theorem emit_renderPtr (s : State F V Q M D) (cs : List (Call F M)) :
    (s.emit cs).s_dataBeingRenderedByRenderThread
      = s.s_dataBeingRenderedByRenderThread := rfl

@[simp] theorem emit_rendered (s : State F V Q M D) (cs : List (Call F M)) :
    (s.emit cs).rendered = s.rendered := rfl

@[simp] theorem emit_submitted (s : State F V Q M D) (cs : List (Call F M)) :
    (s.emit cs).submitted = s.submitted := rfl

@[simp] theorem emit_emit (s : State F V Q M D) (a b : List (Call F M)) :
    (s.emit a).emit b = s.emit (a ++ b) := by
  simp [emit, List.append_assoc]

@[simp] theorem emit_nil (s : State F V Q M D) : s.emit [] = s := by
  simp [emit]

@[simp] theorem store_calls (s : State F V Q M D) (i : Fin 2)
    (d : sDataRequiredToRenderAFrame F V Q M D) : (s.store i d).calls = s.calls := rfl

@[simp] theorem store_submitPtr (s : State F V Q M D) (i : Fin 2)
    (d : sDataRequiredToRenderAFrame F V Q M D) :
    (s.store i d).s_dataBeingSubmittedByApplicationThread
      = s.s_dataBeingSubmittedByApplicationThread := rfl

@[simp] theorem store_renderPtr (s : State F V Q M D) (i : Fin 2)
    (d : sDataRequiredToRenderAFrame F V Q M D) :
    (s.store i d).s_dataBeingRenderedByRenderThread
      = s.s_dataBeingRenderedByRenderThread := rfl

@[simp] theorem store_data (s : State F V Q M D) (i : Fin 2)
    (d : sDataRequiredToRenderAFrame F V Q M D) :
    (s.store i d).s_dataRequiredToRenderAFrame
      = Function.update s.s_dataRequiredToRenderAFrame i d := rfl

@[simp] theorem store_store (s : State F V Q M D) (i : Fin 2)
    (d d1 : sDataRequiredToRenderAFrame F V Q M D) :
    (s.store i d).store i d1 = s.store i d1 := by
  simp [store]

@[simp] theorem store_emit (s : State F V Q M D) (i : Fin 2)
    (d : sDataRequiredToRenderAFrame F V Q M D) (cs : List (Call F M)) :
    (s.emit cs).store i d = (s.store i d).emit cs := rfl

theorem store_self (s : State F V Q M D) (i : Fin 2) :
    s.store i (s.s_dataRequiredToRenderAFrame i) = s := by
  simp [store]

@[simp] theorem setRendered_calls (s : State F V Q M D)
    (d : sDataRequiredToRenderAFrame F V Q M D) : (s.setRendered d).calls = s.calls := rfl

@[simp] theorem setRendered_rendered (s : State F V Q M D)
    (d : sDataRequiredToRenderAFrame F V Q M D) : (s.setRendered d).rendered = d := by
  simp [setRendered, rendered]

@[simp] theorem setRendered_setRendered (s : State F V Q M D)
    (d d1 : sDataRequiredToRenderAFrame F V Q M D) :
    (s.setRendered d).setRendered d1 = s.setRendered d1 := by
  simp [setRendered]

@[simp] theorem setRendered_emit (s : State F V Q M D)
    (d : sDataRequiredToRenderAFrame F V Q M D) (cs : List (Call F M)) :
    (s.emit cs).setRendered d = (s.setRendered d).emit cs := rfl

@[simp] theorem setRendered_self (s : State F V Q M D) : s.setRendered s.rendered = s := by
  simp [setRendered, rendered, store_self]

@[simp] theorem setRendered_submitPtr (s : State F V Q M D)
    (d : sDataRequiredToRenderAFrame F V Q M D) :
    (s.setRendered d).s_dataBeingSubmittedByApplicationThread
      = s.s_dataBeingSubmittedByApplicationThread := rfl

@[simp] theorem setRendered_renderPtr (s : State F V Q M D)
    (d : sDataRequiredToRenderAFrame F V Q M D) :
    (s.setRendered d).s_dataBeingRenderedByRenderThread
      = s.s_dataBeingRenderedByRenderThread := rfl

@[simp] theorem setSubmitted_calls (s : State F V Q M D)
    (d : sDataRequiredToRenderAFrame F V Q M D) : (s.setSubmitted d).calls = s.calls := rfl

@[simp] theorem setSubmitted_submitted (s : State F V Q M D)
    (d : sDataRequiredToRenderAFrame F V Q M D) : (s.setSubmitted d).submitted = d := by
  simp [setSubmitted, submitted]

@[simp] theorem setSubmitted_setSubmitted (s : State F V Q M D)
    (d d1 : sDataRequiredToRenderAFrame F V Q M D) :
    (s.setSubmitted d).setSubmitted d1 = s.setSubmitted d1 := by
  simp [setSubmitted]

@[simp] theorem setSubmitted_emit (s : State F V Q M D)
    (d : sDataRequiredToRenderAFrame F V Q M D) (cs : List (Call F M)) :
    (s.emit cs).setSubmitted d = (s.setSubmitted d).emit cs := rfl

@[simp] theorem setSubmitted_submitPtr (s : State F V Q M D)
    (d : sDataRequiredToRenderAFrame F V Q M D) :
    (s.setSubmitted d).s_dataBeingSubmittedByApplicationThread
      = s.s_dataBeingSubmittedByApplicationThread := rfl

@[simp] theorem setSubmitted_renderPtr (s : State F V Q M D)
    (d : sDataRequiredToRenderAFrame F V Q M D) :
    (s.setSubmitted d).s_dataBeingRenderedByRenderThread
      = s.s_dataBeingRenderedByRenderThread := rfl

end State

/-! ## The loops of `RenderFrame` in closed form -/

theorem drawMeshStep_eq (x : Externals F V Q M D) (s : State F V Q M D) (data : meshData V Q D) :
    drawMeshStep x s data
      = (s.setRendered { s.rendered with
          constantData_perDraw := { g_transform_localToWorld := localToWorld x data } }).emit
          (meshDrawCalls x data) := by
  simp [drawMeshStep, meshDrawCalls]

theorem foldl_drawMeshStep (x : Externals F V Q M D) (l : List (meshData V Q D))
    (s : State F V Q M D) :
    l.foldl (drawMeshStep x) s
      = (s.setRendered { s.rendered with
          constantData_perDraw := lastPerDraw x s.rendered.constantData_perDraw l }).emit
          (l.flatMap (meshDrawCalls x)) := by
  induction l generalizing s with
  | nil => simp [lastPerDraw]; exact (State.setRendered_self s).symm
  | cons a l ih =>
    rw [List.foldl_cons, ih, drawMeshStep_eq]
    simp [lastPerDraw]

theorem foldl_depthKeyStep (x : Externals F V Q M D) (l : List (meshData V Q D)) (n : Nat)
    (s : State F V Q M D) (ks : List (F × Nat)) :
    (l.enumFrom n).foldl (depthKeyStep x) (s, ks)
      = (s.setRendered { s.rendered with
          constantData_perDraw := lastPerDraw x s.rendered.constantData_perDraw l },
         ks ++ (l.enumFrom n).map
          (fun e => (depthKey x s.rendered.constantData_perFrame e.2, e.1))) := by
  induction l generalizing s ks n with
  | nil => simp [lastPerDraw]; exact (State.setRendered_self s).symm
  | cons a l ih =>
    rw [List.enumFrom_cons, List.foldl_cons]
    simp only [depthKeyStep]
    rw [ih]
    simp [lastPerDraw, depthKey]

theorem foldl_drawTranslucentStep (x : Externals F V Q M D) (ps : List (F × Nat))
    (s : State F V Q M D) :
    ps.foldl (drawTranslucentStep x) s
      = (ps.filterMap (fun p => s.rendered.meshTranslucentDataVec[p.2]?)).foldl
          (drawMeshStep x) s := by
  induction ps generalizing s with
  | nil => simp
  | cons p ps ih =>
    rw [List.foldl_cons, ih]
    cases h : s.rendered.meshTranslucentDataVec[p.2]? with
    | none => simp [drawTranslucentStep, h]
    | some data => simp [drawTranslucentStep, h, drawMeshStep_eq]

theorem foldl_drawSpriteStep (l : List renderData) (s : State F V Q M D) :
    l.foldl drawSpriteStep s = s.emit (l.flatMap spriteDrawCalls) := by
  induction l generalizing s with
  | nil => simp
  | cons a l ih => rw [List.foldl_cons, ih]; simp [drawSpriteStep, spriteDrawCalls]

theorem foldl_releaseMeshStep (l : List (meshData V Q D)) (s : State F V Q M D) :
    l.foldl releaseMeshStep s = s.emit (l.flatMap meshReleaseCalls) := by
  induction l generalizing s with
  | nil => simp
  | cons a l ih => rw [List.foldl_cons, ih]; simp [releaseMeshStep, meshReleaseCalls]

theorem foldl_releaseSpriteStep (l : List renderData) (s : State F V Q M D) :
    l.foldl releaseSpriteStep s = s.emit (l.flatMap spriteReleaseCalls) := by
  induction l generalizing s with
  | nil => simp
  | cons a l ih => rw [List.foldl_cons, ih]; simp [releaseSpriteStep, spriteReleaseCalls]

theorem drawTranslucent_eq [LinearOrder F] (x : Externals F V Q M D) (s : State F V Q M D) :
    drawTranslucent x s
      = (s.setRendered { s.rendered with
          constantData_perDraw :=
            lastPerDraw x (lastPerDraw x s.rendered.constantData_perDraw
              s.rendered.meshTranslucentDataVec) (translucentDrawOrder x s.rendered) }).emit
          ((translucentDrawOrder x s.rendered).flatMap (meshDrawCalls x)) := by
  unfold drawTranslucent
  rw [List.enum, foldl_depthKeyStep]
  simp only [foldl_drawTranslucentStep, foldl_drawMeshStep]
  simp [translucentDrawOrder, depthKeys, List.enum]

theorem RenderFrame_success_eq [LinearOrder F] (x : Externals F V Q M D)
    (s : State F V Q M D) :
    RenderFrame x true true s
      = ((swapPointers s).setRendered (renderedAfter x (swapPointers s).rendered)).emit
          (renderCalls x (swapPointers s).rendered) := by
  simp only [RenderFrame, if_true, Bool.not_true, Bool.false_eq_true, if_false]
  generalize swapPointers s = t
  simp only [release, drawSpritesAndBuffer, drawOpaque, clearAndUpdate, drawTranslucent_eq,
    foldl_drawMeshStep, foldl_drawSpriteStep, foldl_releaseMeshStep, foldl_releaseSpriteStep]
  simp [renderedAfter, renderCalls, translucentDrawOrder, depthKeys]

theorem callsSince_of_eq {s s1 : State F V Q M D} {cs : List (Call F M)}
    (h : s1.calls = s.calls ++ cs) : callsSince s s1 = cs := by
  simp [callsSince, h]

theorem swapPointers_rendered (s : State F V Q M D) : (swapPointers s).rendered = s.submitted :=
  rfl

theorem swapPointers_submitted (s : State F V Q M D) : (swapPointers s).submitted = s.rendered :=
  rfl

theorem callsSince_RenderFrame_success [LinearOrder F] (x : Externals F V Q M D)
    (s : State F V Q M D) :
    callsSince s (RenderFrame x true true s) = renderCalls x s.submitted := by
  apply callsSince_of_eq
  rw [RenderFrame_success_eq]
  rfl

theorem filter_flatMap_eq_map {α β : Type} (p : β → Bool) (f : α → List β) (g : α → β)
    (h : ∀ a, (f a).filter p = [g a]) (l : List α) :
    (l.flatMap f).filter p = l.map g := by
  induction l with
  | nil => rfl
  | cons a l ih => simp [List.flatMap_cons, List.filter_append, h, ih]

theorem filter_flatMap_eq_nil {α β : Type} (p : β → Bool) (f : α → List β)
    (h : ∀ a, (f a).filter p = []) (l : List α) :
    (l.flatMap f).filter p = [] := by
  induction l with
  | nil => rfl
  | cons a l ih => simp only [List.flatMap_cons, List.filter_append, h, ih, List.append_nil]

theorem renderCalls_filter_isDraw [LinearOrder F] (x : Externals F V Q M D)
    (d : sDataRequiredToRenderAFrame F V Q M D) :
    (renderCalls x d).filter Call.isDraw
      = d.meshDataVec.map (fun e => Call.drawMesh e.mesh)
        ++ (translucentDrawOrder x d).map (fun e => Call.drawMesh e.mesh)
        ++ d.renderDataVec.map (fun e => Call.drawSprite e.sprite) := by
  unfold renderCalls
  simp only [List.filter_append,
    filter_flatMap_eq_map Call.isDraw (meshDrawCalls x) (fun e => Call.drawMesh e.mesh)
      (fun _ => rfl),
    filter_flatMap_eq_map Call.isDraw (spriteDrawCalls : renderData → List (Call F M))
      (fun e => Call.drawSprite e.sprite) (fun _ => rfl),
    filter_flatMap_eq_nil Call.isDraw (meshReleaseCalls : meshData V Q D → List (Call F M))
      (fun _ => rfl),
    filter_flatMap_eq_nil Call.isDraw (spriteReleaseCalls : renderData → List (Call F M))
      (fun _ => rfl)]
  simp [Call.isDraw]

theorem renderCalls_filter_isClear [LinearOrder F] (x : Externals F V Q M D)
    (d : sDataRequiredToRenderAFrame F V Q M D) :
    (renderCalls x d).filter Call.isClear
      = [Call.clear d.backgroundColor_0 d.backgroundColor_1 d.backgroundColor_2
          d.backgroundColor_3] := by
  unfold renderCalls
  simp only [List.filter_append,
    filter_flatMap_eq_nil Call.isClear (meshDrawCalls x) (fun _ => rfl),
    filter_flatMap_eq_nil Call.isClear (spriteDrawCalls : renderData → List (Call F M))
      (fun _ => rfl),
    filter_flatMap_eq_nil Call.isClear (meshReleaseCalls : meshData V Q D → List (Call F M))
      (fun _ => rfl),
    filter_flatMap_eq_nil Call.isClear (spriteReleaseCalls : renderData → List (Call F M))
      (fun _ => rfl)]
  simp [Call.isClear]

/-! ## The sort of the depth keys -/

theorem pairNotGt_iff [LinearOrder F] (a b : F × Nat) :
    pairNotGt a b ↔ a.1 < b.1 ∨ (a.1 = b.1 ∧ a.2 ≤ b.2) := by
  unfold pairNotGt pairLt
  rcases lt_trichotomy a.1 b.1 with h | h | h
  · simp [h, not_lt_of_lt h]
  · simp [h]
  · simp [h, not_lt_of_lt h, ne_of_gt h]

instance pairNotGt_isTotal [LinearOrder F] : IsTotal (F × Nat) pairNotGt where
  total a b := by
    rw [pairNotGt_iff, pairNotGt_iff]
    rcases lt_trichotomy a.1 b.1 with h | h | h
    · exact Or.inl (Or.inl h)
    · rcases Nat.le_total a.2 b.2 with h2 | h2
      · exact Or.inl (Or.inr ⟨h, h2⟩)
      · exact Or.inr (Or.inr ⟨h.symm, h2⟩)
    · exact Or.inr (Or.inl h)

instance pairNotGt_isTrans [LinearOrder F] : IsTrans (F × Nat) pairNotGt where
  trans a b c := by
    rw [pairNotGt_iff, pairNotGt_iff, pairNotGt_iff]
    rintro (h1 | ⟨h1, h1x⟩) (h2 | ⟨h2, h2x⟩)
    · exact Or.inl (lt_trans h1 h2)
    · exact Or.inl (h2 ▸ h1)
    · exact Or.inl (h1 ▸ h2)
    · exact Or.inr ⟨h1.trans h2, Nat.le_trans h1x h2x⟩

instance pairNotGt_isAntisymm [LinearOrder F] : IsAntisymm (F × Nat) pairNotGt where
  antisymm a b := by
    rw [pairNotGt_iff, pairNotGt_iff]
    rintro (h1 | ⟨h1, h1x⟩) (h2 | ⟨h2, h2x⟩)
    · exact absurd h1 (not_lt_of_lt h2)
    · exact absurd h1 (by simp [h2])
    · exact absurd h2 (by simp [h1])
    · exact Prod.ext h1 (Nat.le_antisymm h1x h2x)

theorem stdSort_perm [LinearOrder F] (v : List (F × Nat)) : (stdSort v).Perm v :=
  List.perm_insertionSort _ v

theorem stdSort_sorted [LinearOrder F] (v : List (F × Nat)) :
    (stdSort v).Pairwise pairNotGt :=
  List.sorted_insertionSort _ v

/-- Any result that meets the contract of `std::sort` (a rearrangement in which no
element is `operator<` an earlier one) is the list `stdSort` computes. -/
theorem stdSort_unique [LinearOrder F] (v w : List (F × Nat)) (hp : w.Perm v)
    (hs : w.Pairwise (fun a b => ¬ pairLt b a)) : w = stdSort v :=
  have hs1 : w.Pairwise pairNotGt := hs
  List.eq_of_perm_of_sorted (hp.trans (stdSort_perm v).symm) hs1 (stdSort_sorted v)

theorem translucentDrawOrder_eq_map [LinearOrder F] (x : Externals F V Q M D)
    (d : sDataRequiredToRenderAFrame F V Q M D) :
    translucentDrawOrder x d = (translucentDrawIndexed x d).map Prod.snd := by
  unfold translucentDrawOrder translucentDrawIndexed
  rw [List.map_filterMap]
  congr 1
  funext p
  cases d.meshTranslucentDataVec[p.2]? <;> rfl

theorem depthKeys_filterMap (x : Externals F V Q M D)
    (d : sDataRequiredToRenderAFrame F V Q M D) :
    (depthKeys x d).filterMap
        (fun p => (d.meshTranslucentDataVec[p.2]?).map (fun e => (p.2, e)))
      = d.meshTranslucentDataVec.enum := by
  unfold depthKeys
  rw [List.filterMap_map]
  conv_rhs => rw [← List.filterMap_some d.meshTranslucentDataVec.enum]
  apply List.filterMap_congr
  rintro ⟨i, e⟩ he
  have := List.mk_mem_enum_iff_getElem?.mp he
  simp [this]

theorem translucentDrawIndexed_perm [LinearOrder F] (x : Externals F V Q M D)
    (d : sDataRequiredToRenderAFrame F V Q M D) :
    (translucentDrawIndexed x d).Perm d.meshTranslucentDataVec.enum := by
  rw [← depthKeys_filterMap x d]
  exact (stdSort_perm _).filterMap _

theorem translucentDrawOrder_perm [LinearOrder F] (x : Externals F V Q M D)
    (d : sDataRequiredToRenderAFrame F V Q M D) :
    (translucentDrawOrder x d).Perm d.meshTranslucentDataVec := by
  rw [translucentDrawOrder_eq_map]
  have h := (translucentDrawIndexed_perm x d).map Prod.snd
  rwa [List.enum_map_snd] at h

theorem mem_depthKeys {x : Externals F V Q M D} {d : sDataRequiredToRenderAFrame F V Q M D}
    {p : F × Nat} (hp : p ∈ depthKeys x d) :
    ∃ e, d.meshTranslucentDataVec[p.2]? = some e ∧ p.1 = depthKey x d.constantData_perFrame e := by
  unfold depthKeys at hp
  rw [List.mem_map] at hp
  obtain ⟨⟨i, e⟩, he, rfl⟩ := hp
  exact ⟨e, List.mk_mem_enum_iff_getElem?.mp he, rfl⟩

theorem depthKeys_map_snd (x : Externals F V Q M D)
    (d : sDataRequiredToRenderAFrame F V Q M D) :
    (depthKeys x d).map Prod.snd = List.range d.meshTranslucentDataVec.length := by
  unfold depthKeys
  rw [List.map_map]
  have : (Prod.snd ∘ fun e : Nat × meshData V Q D =>
      (depthKey x d.constantData_perFrame e.2, e.1)) = Prod.fst := rfl
  rw [this, List.enum_map_fst]

theorem stdSort_depthKeys_distinct [LinearOrder F] (x : Externals F V Q M D)
    (d : sDataRequiredToRenderAFrame F V Q M D) :
    (stdSort (depthKeys x d)).Pairwise (fun p q => p.2 ≠ q.2) := by
  have h1 : ((stdSort (depthKeys x d)).map Prod.snd).Nodup := by
    have hp := (stdSort_perm (depthKeys x d)).map Prod.snd
    rw [depthKeys_map_snd] at hp
    exact hp.nodup_iff.mpr (List.nodup_range _)
  exact (List.pairwise_map.mp h1)

theorem translucentDrawIndexed_sorted [LinearOrder F] (x : Externals F V Q M D)
    (d : sDataRequiredToRenderAFrame F V Q M D) :
    (translucentDrawIndexed x d).Pairwise (fun a b =>
      depthKey x d.constantData_perFrame a.2 < depthKey x d.constantData_perFrame b.2
      ∨ (depthKey x d.constantData_perFrame a.2 = depthKey x d.constantData_perFrame b.2
          ∧ a.1 < b.1)) := by
  unfold translucentDrawIndexed
  rw [List.pairwise_filterMap]
  have h := (stdSort_sorted (depthKeys x d)).and (stdSort_depthKeys_distinct x d)
  refine h.imp_of_mem ?_
  intro p q hp hq hpq a ha b hb
  have hp1 := mem_depthKeys ((stdSort_perm _).mem_iff.mp hp)
  have hq1 := mem_depthKeys ((stdSort_perm _).mem_iff.mp hq)
  obtain ⟨e, he, hke⟩ := hp1
  obtain ⟨f, hf, hkf⟩ := hq1
  rw [he] at ha
  rw [hf] at hb
  simp only [Option.map_some', Option.mem_def, Option.some.injEq] at ha hb
  subst ha
  subst hb
  simp only
  rw [← hke, ← hkf]
  rcases (pairNotGt_iff p q).mp hpq.1 with h1 | ⟨h1, h2⟩
  · exact Or.inl h1
  · exact Or.inr ⟨h1, lt_of_le_of_ne h2 hpq.2⟩

theorem translucentDrawOrder_sorted [LinearOrder F] (x : Externals F V Q M D)
    (d : sDataRequiredToRenderAFrame F V Q M D) :
    (translucentDrawOrder x d).Pairwise (fun a b =>
      depthKey x d.constantData_perFrame a ≤ depthKey x d.constantData_perFrame b) := by
  rw [translucentDrawOrder_eq_map, List.pairwise_map]
  refine (translucentDrawIndexed_sorted x d).imp ?_
  rintro a b (h | ⟨h, -⟩)
  · exact le_of_lt h
  · exact le_of_eq h

theorem translucentDrawOrder_three [LinearOrder F] (x : Externals F V Q M D)
    (d : sDataRequiredToRenderAFrame F V Q M D) (a b c : meshData V Q D)
    (hl : d.meshTranslucentDataVec = [a, b, c])
    (h1 : depthKey x d.constantData_perFrame b < depthKey x d.constantData_perFrame c)
    (h2 : depthKey x d.constantData_perFrame c < depthKey x d.constantData_perFrame a) :
    translucentDrawOrder x d = [b, c, a] := by
  have h3 := lt_trans h1 h2
  unfold translucentDrawOrder depthKeys
  rw [hl]
  simp [List.enum, stdSort, List.insertionSort, List.orderedInsert, pairNotGt, pairLt,
    h1, h2, h3, not_lt_of_lt h1, not_lt_of_lt h2, not_lt_of_lt h3, le_of_lt h1, le_of_lt h2,
    le_of_lt h3]

/-! ## Submission in closed form -/

theorem SubmitEffectAndSprite_eq (data : renderData) (s : State F V Q M D) :
    SubmitEffectAndSprite data s
      = (s.setSubmitted { s.submitted with
          renderDataVec := s.submitted.renderDataVec ++ [data] }).emit
          [Call.inc (Resource.effect data.effect), Call.inc (Resource.sprite data.sprite),
            Call.inc (Resource.texture data.texture)] := by
  simp [SubmitEffectAndSprite]

theorem SubmitEffectAndMesh_eq (x : Externals F V Q M D) (data : meshData V Q D)
    (rb : sRigidBodyState V Q D) (s : State F V Q M D) :
    SubmitEffectAndMesh x data rb s
      = (s.setSubmitted
          (if x.IsAlphaTransparencyEnabled data.effect then
            { s.submitted with meshTranslucentDataVec := s.submitted.meshTranslucentDataVec
                ++ [predictedData x
                  s.submitted.constantData_perFrame.g_elapsedSecondCount_simulationTime data rb] }
          else
            { s.submitted with meshDataVec := s.submitted.meshDataVec
                ++ [predictedData x
                  s.submitted.constantData_perFrame.g_elapsedSecondCount_simulationTime
                  data rb] })).emit
          [Call.inc (Resource.effect data.effect), Call.inc (Resource.mesh data.mesh),
            Call.inc (Resource.texture data.texture)] := by
  unfold SubmitEffectAndMesh
  have he : (predictedData x
      s.submitted.constantData_perFrame.g_elapsedSecondCount_simulationTime data rb).effect
        = data.effect := rfl
  by_cases h : x.IsAlphaTransparencyEnabled data.effect = true <;> simp [h, he]

theorem SubmitBackgroundColor_eq (r g b a : F) (s : State F V Q M D) :
    SubmitBackgroundColor r g b a s
      = s.setSubmitted { s.submitted with
          backgroundColor_0 := r, backgroundColor_1 := g,
          backgroundColor_2 := b, backgroundColor_3 := a } := by
  simp [SubmitBackgroundColor]

theorem predictedData_resources (x : Externals F V Q M D) (t : F) (data : meshData V Q D)
    (rb : sRigidBodyState V Q D) : (predictedData x t data rb).resources = data.resources := rfl

@[simp] theorem predictedData_effect (x : Externals F V Q M D) (t : F) (data : meshData V Q D)
    (rb : sRigidBodyState V Q D) : (predictedData x t data rb).effect = data.effect := rfl

@[simp] theorem predictedData_mesh (x : Externals F V Q M D) (t : F) (data : meshData V Q D)
    (rb : sRigidBodyState V Q D) : (predictedData x t data rb).mesh = data.mesh := rfl

@[simp] theorem predictedData_texture (x : Externals F V Q M D) (t : F) (data : meshData V Q D)
    (rb : sRigidBodyState V Q D) : (predictedData x t data rb).texture = data.texture := rfl

theorem run_drawSubmissions_submitted [LinearOrder F] (x : Externals F V Q M D)
    (subs : List (DrawSubmission V Q D)) (s : State F V Q M D) :
    (run x (subs.map DrawSubmission.toOp) s).submitted
      = { s.submitted with
          renderDataVec := s.submitted.renderDataVec
            ++ subs.filterMap DrawSubmission.spriteEntry
          meshDataVec := s.submitted.meshDataVec
            ++ subs.filterMap (DrawSubmission.opaqueEntry x
              s.submitted.constantData_perFrame.g_elapsedSecondCount_simulationTime)
          meshTranslucentDataVec := s.submitted.meshTranslucentDataVec
            ++ subs.filterMap (DrawSubmission.translucentEntry x
              s.submitted.constantData_perFrame.g_elapsedSecondCount_simulationTime) } := by
  induction subs generalizing s with
  | nil => simp [run]
  | cons sub subs ih =>
    have hrun : run x ((sub :: subs).map DrawSubmission.toOp) s
        = run x (subs.map DrawSubmission.toOp) ((DrawSubmission.toOp sub).apply x s) := rfl
    rw [hrun, ih]
    cases sub with
    | mesh data rb =>
      simp only [DrawSubmission.toOp, Op.apply, SubmitEffectAndMesh_eq, State.emit_submitted,
        State.setSubmitted_submitted, List.filterMap_cons, DrawSubmission.spriteEntry,
        DrawSubmission.opaqueEntry, DrawSubmission.translucentEntry]
      by_cases h : x.IsAlphaTransparencyEnabled data.effect = true <;> simp [h]
    | sprite data =>
      simp [DrawSubmission.toOp, Op.apply, SubmitEffectAndSprite_eq, List.filterMap_cons,
        DrawSubmission.spriteEntry, DrawSubmission.opaqueEntry,
        DrawSubmission.translucentEntry]

theorem apply_keeps_backgroundColor [LinearOrder F] (x : Externals F V Q M D)
    (o : Op F V Q D) (h : o.keepsBackgroundColor = true) (s : State F V Q M D) :
    backgroundColor (o.apply x s).submitted = backgroundColor s.submitted := by
  cases o with
  | SubmitElapsedTime a b => simp [Op.apply, SubmitElapsedTime, backgroundColor]
  | SubmitBackgroundColor r g b a => simp [Op.keepsBackgroundColor] at h
  | SubmitEffectAndSprite data => simp [Op.apply, SubmitEffectAndSprite_eq, backgroundColor]
  | SubmitEffectAndMesh data rb =>
    simp only [Op.apply, SubmitEffectAndMesh_eq, State.emit_submitted,
      State.setSubmitted_submitted, backgroundColor]
    split_ifs <;> rfl
  | SubmitCamera camera => simp [Op.apply, SubmitCamera, backgroundColor]
  | RenderFrame w g =>
    simp only [Op.keepsBackgroundColor, Bool.not_eq_true'] at h
    subst h
    simp [Op.apply, RenderFrame, reportFailure]

theorem run_keeps_backgroundColor [LinearOrder F] (x : Externals F V Q M D)
    (ops : List (Op F V Q D)) (h : ∀ o ∈ ops, o.keepsBackgroundColor = true)
    (s : State F V Q M D) :
    backgroundColor (run x ops s).submitted = backgroundColor s.submitted := by
  induction ops generalizing s with
  | nil => rfl
  | cons o ops ih =>
    have h1 := ih (fun o1 ho1 => h o1 (List.mem_cons_of_mem _ ho1)) (o.apply x s)
    have h2 := apply_keeps_backgroundColor x o (h o (List.mem_cons_self _ _)) s
    exact h1.trans h2

/-! ## Reference counts -/

theorem netCount_nil (r : Resource) : netCount r ([] : List (Call F M)) = 0 := rfl

theorem netCount_append (r : Resource) (a b : List (Call F M)) :
    netCount r (a ++ b) = netCount r a + netCount r b := by
  simp [netCount]

theorem refCount_append (c0 : Resource → Int) (a b : List (Call F M)) (r : Resource) :
    refCount c0 (a ++ b) r = refCount c0 a r + netCount r b := by
  simp [refCount, netCount, add_assoc]

theorem netCount_flatMap {α : Type} (r : Resource) (f : α → List (Call F M))
    (g : α → List Resource) (c : Int)
    (h : ∀ a, netCount r (f a) = c * ((g a).count r : Int)) (l : List α) :
    netCount r (l.flatMap f) = c * (((l.flatMap g).count r : Nat) : Int) := by
  induction l with
  | nil => simp [netCount]
  | cons a l ih =>
    simp only [List.flatMap_cons, netCount_append, List.count_append, ih, h]
    push_cast
    ring

theorem netCount_incs (r : Resource) (rs : List Resource) :
    netCount r (rs.map Call.inc : List (Call F M)) = ((rs.count r : Nat) : Int) := by
  induction rs with
  | nil => simp [netCount]
  | cons a rs ih =>
    have : netCount r (List.map Call.inc (a :: rs) : List (Call F M))
        = refDelta r (Call.inc a : Call F M) + netCount r (rs.map Call.inc : List (Call F M)) := by
      simp [netCount]
    rw [this, ih, List.count_cons]
    simp only [refDelta, beq_iff_eq]
    split_ifs <;> (simp; try ring)

theorem netCount_meshReleaseCalls (r : Resource) (data : meshData V Q D) :
    netCount r (meshReleaseCalls data : List (Call F M))
      = (-1) * ((data.resources.count r : Nat) : Int) := by
  simp only [netCount, meshReleaseCalls, meshData.resources, refDelta, List.map_cons,
    List.map_nil, List.sum_cons, List.sum_nil, List.count_cons, List.count_nil, beq_iff_eq]
  split_ifs <;> simp

theorem netCount_spriteReleaseCalls (r : Resource) (data : renderData) :
    netCount r (spriteReleaseCalls data : List (Call F M))
      = (-1) * ((data.resources.count r : Nat) : Int) := by
  simp only [netCount, spriteReleaseCalls, renderData.resources, refDelta, List.map_cons,
    List.map_nil, List.sum_cons, List.sum_nil, List.count_cons, List.count_nil, beq_iff_eq]
  split_ifs <;> simp

theorem netCount_meshCleanUpCalls (r : Resource) (data : meshData V Q D) :
    netCount r (meshCleanUpCalls data : List (Call F M))
      = (-1) * ((data.resources.count r : Nat) : Int) := by
  simp only [netCount, meshCleanUpCalls, meshData.resources, refDelta, List.map_cons,
    List.map_nil, List.sum_cons, List.sum_nil, List.count_cons, List.count_nil, beq_iff_eq]
  split_ifs <;> simp

theorem netCount_meshDrawCalls (x : Externals F V Q M D) (r : Resource) (data : meshData V Q D) :
    netCount r (meshDrawCalls x data) = 0 * ((data.resources.count r : Nat) : Int) := by
  simp [netCount, meshDrawCalls, refDelta]

theorem netCount_spriteDrawCalls (r : Resource) (data : renderData) :
    netCount r (spriteDrawCalls data : List (Call F M))
      = 0 * ((data.resources.count r : Nat) : Int) := by
  simp [netCount, spriteDrawCalls, refDelta]

theorem netCount_renderCalls [LinearOrder F] (x : Externals F V Q M D) (r : Resource)
    (d : sDataRequiredToRenderAFrame F V Q M D) :
    netCount r (renderCalls x d)
      = - (((d.meshDataVec.flatMap meshData.resources).count r : Nat) : Int)
        - (((d.renderDataVec.flatMap renderData.resources).count r : Nat) : Int) := by
  unfold renderCalls
  simp only [netCount_append,
    netCount_flatMap r _ _ _ (netCount_meshDrawCalls x r),
    netCount_flatMap r _ _ _ (netCount_spriteDrawCalls r),
    netCount_flatMap r _ _ _ (netCount_meshReleaseCalls r),
    netCount_flatMap r _ _ _ (netCount_spriteReleaseCalls r)]
  simp [netCount, refDelta]
  ring

theorem count_mesh_resources (data : meshData V Q D) (r : Resource) :
    ((data.resources.count r : Nat) : Int)
      = if r = Resource.effect data.effect ∨ r = Resource.mesh data.mesh
          ∨ r = Resource.texture data.texture then 1 else 0 := by
  simp only [meshData.resources, List.count_cons, List.count_nil, beq_iff_eq]
  cases r <;> simp <;> split_ifs <;> simp_all

theorem count_sprite_resources (data : renderData) (r : Resource) :
    ((data.resources.count r : Nat) : Int)
      = if r = Resource.effect data.effect ∨ r = Resource.sprite data.sprite
          ∨ r = Resource.texture data.texture then 1 else 0 := by
  simp only [renderData.resources, List.count_cons, List.count_nil, beq_iff_eq]
  cases r <;> simp <;> split_ifs <;> simp_all

/-! ## The balance invariant -/

theorem heldCount_store (s : State F V Q M D) (i : Fin 2)
    (d : sDataRequiredToRenderAFrame F V Q M D) (r : Resource) :
    (heldCount (s.store i d) r : Int)
      = heldCount s r - frameHeld (s.s_dataRequiredToRenderAFrame i) r + frameHeld d r := by
  unfold heldCount
  fin_cases i <;> (simp [Function.update]; try ring)

theorem balanced_store_emit {s : State F V Q M D} (hb : Balanced s) (i : Fin 2)
    (d : sDataRequiredToRenderAFrame F V Q M D) (cs : List (Call F M))
    (h : ∀ r, netCount r cs
      = (frameHeld d r : Int) - frameHeld (s.s_dataRequiredToRenderAFrame i) r) :
    Balanced ((s.store i d).emit cs) := by
  refine ⟨hb.1, fun r => ?_⟩
  have h1 : heldCount ((s.store i d).emit cs) r = heldCount (s.store i d) r := rfl
  rw [h1, heldCount_store, State.emit_calls, State.store_calls, netCount_append, hb.2 r, h r]
  ring

theorem balanced_swapPointers {s : State F V Q M D} (hb : Balanced s) :
    Balanced (swapPointers s) :=
  ⟨fun h => hb.1 h.symm, hb.2⟩

theorem balanced_emit_neutral {s : State F V Q M D} (hb : Balanced s) (cs : List (Call F M))
    (h : ∀ r, netCount r cs = 0) : Balanced (s.emit cs) := by
  refine ⟨hb.1, fun r => ?_⟩
  have h1 : heldCount (s.emit cs) r = heldCount s r := rfl
  rw [h1, State.emit_calls, netCount_append, hb.2 r, h r, add_zero]

theorem balanced_store_neutral {s : State F V Q M D} (hb : Balanced s) (i : Fin 2)
    (d : sDataRequiredToRenderAFrame F V Q M D)
    (h : ∀ r, frameHeld d r = frameHeld (s.s_dataRequiredToRenderAFrame i) r) :
    Balanced (s.store i d) := by
  have := balanced_store_emit hb i d [] (fun r => by rw [h r]; simp [netCount])
  simpa using this

theorem balanced_initialState (d0 d1 : sDataRequiredToRenderAFrame F V Q M D) :
    Balanced (initialState d0 d1) := by
  refine ⟨by simp [initialState], fun r => ?_⟩
  simp [initialState, heldCount, frameHeld, emptyFrame, netCount]

theorem balanced_SubmitElapsedTime {s : State F V Q M D} (hb : Balanced s) (a b : F) :
    Balanced (SubmitElapsedTime a b s) :=
  balanced_store_neutral hb _ _ (fun _ => rfl)

theorem balanced_SubmitBackgroundColor {s : State F V Q M D} (hb : Balanced s) (r g b a : F) :
    Balanced (SubmitBackgroundColor r g b a s) := by
  unfold Graphics.SubmitBackgroundColor
  simp only [State.setSubmitted_setSubmitted, State.setSubmitted_submitted]
  exact balanced_store_neutral hb _ _ (fun _ => rfl)

theorem balanced_SubmitCamera {s : State F V Q M D} (hb : Balanced s)
    (x : Externals F V Q M D) (camera : cCamera F V Q D) :
    Balanced (SubmitCamera x camera s) :=
  balanced_store_neutral hb _ _ (fun _ => rfl)

theorem balanced_SubmitEffectAndSprite {s : State F V Q M D} (hb : Balanced s)
    (data : renderData) : Balanced (SubmitEffectAndSprite data s) := by
  rw [SubmitEffectAndSprite_eq]
  refine balanced_store_emit hb _ _ _ (fun r => ?_)
  have h := netCount_incs (F := F) (M := M) r data.resources
  simp only [renderData.resources, List.map_cons, List.map_nil] at h
  rw [h]
  simp only [frameHeld, State.submitted, List.flatMap_append, List.count_append,
    List.flatMap_cons, List.flatMap_nil, List.append_nil, renderData.resources]
  push_cast
  ring

theorem balanced_SubmitEffectAndMesh {s : State F V Q M D} (hb : Balanced s)
    (x : Externals F V Q M D) (data : meshData V Q D) (rb : sRigidBodyState V Q D) :
    Balanced (SubmitEffectAndMesh x data rb s) := by
  rw [SubmitEffectAndMesh_eq]
  refine balanced_store_emit hb _ _ _ (fun r => ?_)
  have h := netCount_incs (F := F) (M := M) r data.resources
  simp only [meshData.resources, List.map_cons, List.map_nil] at h
  rw [h]
  split_ifs <;>
  · simp only [frameHeld, State.submitted, List.flatMap_append, List.count_append,
      List.flatMap_cons, List.flatMap_nil, List.append_nil, predictedData_effect,
      predictedData_mesh, predictedData_texture, meshData.resources]
    push_cast
    ring

theorem balanced_RenderFrame [LinearOrder F] {s : State F V Q M D} (hb : Balanced s)
    (x : Externals F V Q M D) (w g : Bool) : Balanced (RenderFrame x w g s) := by
  cases w
  · exact balanced_emit_neutral hb _ (fun r => by simp [netCount, refDelta])
  · cases g
    · exact balanced_emit_neutral (balanced_swapPointers hb) _ (fun r => by simp [netCount, refDelta])
    · rw [RenderFrame_success_eq]
      refine balanced_store_emit (balanced_swapPointers hb) _ _ _ (fun r => ?_)
      rw [netCount_renderCalls]
      simp only [frameHeld, renderedAfter, State.rendered, List.flatMap_nil, List.count_nil]
      push_cast
      ring

theorem balanced_apply [LinearOrder F] {s : State F V Q M D} (hb : Balanced s)
    (x : Externals F V Q M D) (o : Op F V Q D) : Balanced (o.apply x s) := by
  cases o with
  | SubmitElapsedTime a b => exact balanced_SubmitElapsedTime hb a b
  | SubmitBackgroundColor r g b a => exact balanced_SubmitBackgroundColor hb r g b a
  | SubmitEffectAndSprite data => exact balanced_SubmitEffectAndSprite hb data
  | SubmitEffectAndMesh data rb => exact balanced_SubmitEffectAndMesh hb x data rb
  | SubmitCamera camera => exact balanced_SubmitCamera hb x camera
  | RenderFrame w g => exact balanced_RenderFrame hb x w g

theorem balanced_run [LinearOrder F] (x : Externals F V Q M D) (ops : List (Op F V Q D))
    {s : State F V Q M D} (hb : Balanced s) : Balanced (run x ops s) := by
  induction ops generalizing s with
  | nil => exact hb
  | cons o ops ih => exact ih (balanced_apply hb x o)

/-! ## `CleanUp` in closed form -/

theorem foldl_cleanUpSpriteStep (l : List renderData) (s : State F V Q M D) :
    l.foldl cleanUpSpriteStep s = s.emit (l.flatMap spriteReleaseCalls) := by
  induction l generalizing s with
  | nil => simp
  | cons a l ih => rw [List.foldl_cons, ih]; simp [cleanUpSpriteStep, spriteReleaseCalls]

theorem foldl_cleanUpRenderedMeshStep (l : List (meshData V Q D)) (s : State F V Q M D) :
    l.foldl cleanUpRenderedMeshStep s = s.emit (l.flatMap meshCleanUpCalls) := by
  induction l generalizing s with
  | nil => simp
  | cons a l ih => rw [List.foldl_cons, ih]; simp [cleanUpRenderedMeshStep, meshCleanUpCalls]

theorem foldl_cleanUpSubmittedMeshStep (l : List (meshData V Q D)) (s : State F V Q M D) :
    l.foldl cleanUpSubmittedMeshStep s = s.emit (l.flatMap meshReleaseCalls) := by
  induction l generalizing s with
  | nil => simp
  | cons a l ih => rw [List.foldl_cons, ih]; simp [cleanUpSubmittedMeshStep, meshReleaseCalls]

theorem CleanUp_calls (s : State F V Q M D)
    (h : s.s_dataBeingSubmittedByApplicationThread ≠ s.s_dataBeingRenderedByRenderThread) :
    (CleanUp s).calls = s.calls ++ [Call.cleanUpView] ++ cleanUpCalls s ++ [Call.cleanUpRest] := by
  obtain ⟨data, sp, rp, calls⟩ := s
  fin_cases sp <;> fin_cases rp <;> simp at h <;>
    simp [CleanUp, cleanUpCalls, foldl_cleanUpSpriteStep, foldl_cleanUpRenderedMeshStep,
      foldl_cleanUpSubmittedMeshStep, State.setRendered, State.setSubmitted, State.store,
      State.rendered, State.submitted, State.emit, Function.update]

theorem CleanUp_lists (s : State F V Q M D)
    (h : s.s_dataBeingSubmittedByApplicationThread ≠ s.s_dataBeingRenderedByRenderThread)
    (i : Fin 2) :
    ((CleanUp s).s_dataRequiredToRenderAFrame i).renderDataVec = []
    ∧ ((CleanUp s).s_dataRequiredToRenderAFrame i).meshDataVec = []
    ∧ ((CleanUp s).s_dataRequiredToRenderAFrame i).meshTranslucentDataVec = [] := by
  obtain ⟨data, sp, rp, calls⟩ := s
  fin_cases sp <;> fin_cases rp <;> simp at h <;> fin_cases i <;>
    simp [CleanUp, foldl_cleanUpSpriteStep, foldl_cleanUpRenderedMeshStep,
      foldl_cleanUpSubmittedMeshStep, State.setRendered, State.setSubmitted, State.store,
      State.rendered, State.submitted, State.emit, Function.update]

theorem heldCount_eq_of_ne (s : State F V Q M D)
    (h : s.s_dataBeingSubmittedByApplicationThread ≠ s.s_dataBeingRenderedByRenderThread)
    (r : Resource) : heldCount s r = frameHeld s.rendered r + frameHeld s.submitted r := by
  obtain ⟨data, sp, rp, calls⟩ := s
  fin_cases sp <;> fin_cases rp <;> simp at h <;>
    simp [heldCount, State.rendered, State.submitted, Nat.add_comm]

theorem netCount_cleanUpCalls (s : State F V Q M D)
    (h : s.s_dataBeingSubmittedByApplicationThread ≠ s.s_dataBeingRenderedByRenderThread)
    (r : Resource) : netCount r (cleanUpCalls s) = - (heldCount s r : Int) := by
  rw [heldCount_eq_of_ne s h]
  unfold cleanUpCalls frameHeld
  simp only [netCount_append,
    netCount_flatMap r _ _ _ (netCount_meshCleanUpCalls r),
    netCount_flatMap r _ _ _ (netCount_meshReleaseCalls r),
    netCount_flatMap r _ _ _ (netCount_spriteReleaseCalls r)]
  push_cast
  ring

theorem balanced_CleanUp_netCount {s : State F V Q M D} (hb : Balanced s) (r : Resource) :
    netCount r (CleanUp s).calls = 0 := by
  rw [CleanUp_calls s hb.1]
  simp only [netCount_append, netCount_cleanUpCalls s hb.1, hb.2 r]
  simp [netCount, refDelta]

/-! ## Release of the draw entries (C1, C2) -/

/-- C1 (failing input evaluated): one translucent mesh (effect 1, mesh 10,
texture 20) is submitted in a window; the `RenderFrame` that renders it, with
wait and signal succeeding, draws the mesh and issues no decrement at all, so
the three reference counts stay one above their starting value. -/
theorem RenderFrame_releases_no_translucent_entry :
    oneTranslucent.submitted.meshTranslucentDataVec = [exampleMesh 1 10 20 5]
    ∧ (callsSince oneTranslucent
        (RenderFrame exampleExternals true true oneTranslucent)).filter Call.isDraw
      = [Call.drawMesh 10]
    ∧ (callsSince oneTranslucent
        (RenderFrame exampleExternals true true oneTranslucent)).filter Call.isDec = []
    ∧ refCount (fun _ => 0) (RenderFrame exampleExternals true true oneTranslucent).calls
        (Resource.effect 1) = 1
    ∧ refCount (fun _ => 0) (RenderFrame exampleExternals true true oneTranslucent).calls
        (Resource.mesh 10) = 1
    ∧ refCount (fun _ => 0) (RenderFrame exampleExternals true true oneTranslucent).calls
        (Resource.texture 20) = 1 := by
  refine ⟨by decide, by decide, by decide, by decide, by decide, by decide⟩

/-- C2: after any finite sequence of submission calls and `RenderFrame` calls
(each with any wait and signal result) made from the initial state, every
outstanding increment belongs to an entry still held in one of the six draw lists
(the count of each resource is its starting value plus the number of references
from held entries); a `CleanUp` then returns every reference count to the value it
had before the first submission and leaves all six draw lists empty. -/
theorem CleanUp_balances_every_submission [LinearOrder F] (x : Externals F V Q M D)
    (d0 d1 : sDataRequiredToRenderAFrame F V Q M D) (ops : List (Op F V Q D))
    (c0 : Resource → Int) :
    (∀ r, refCount c0 (run x ops (initialState d0 d1)).calls r
        = c0 r + (heldCount (run x ops (initialState d0 d1)) r : Int))
    ∧ (∀ r, refCount c0 (CleanUp (run x ops (initialState d0 d1))).calls r = c0 r)
    ∧ (∀ i, ((CleanUp (run x ops (initialState d0 d1))).s_dataRequiredToRenderAFrame i).renderDataVec
          = []
        ∧ ((CleanUp (run x ops (initialState d0 d1))).s_dataRequiredToRenderAFrame i).meshDataVec
          = []
        ∧ ((CleanUp (run x ops
            (initialState d0 d1))).s_dataRequiredToRenderAFrame i).meshTranslucentDataVec
          = []) := by
  have hb : Balanced (run x ops (initialState d0 d1)) :=
    balanced_run x ops (balanced_initialState d0 d1)
  refine ⟨fun r => ?_, fun r => ?_, fun i => CleanUp_lists _ hb.1 i⟩
  · have := hb.2 r
    unfold netCount at this
    rw [refCount, this]
  · have := balanced_CleanUp_netCount hb r
    unfold netCount at this
    rw [refCount, this, add_zero]

/-! ## Draw order (C3, C4, C5) -/

/-- C3: let any sequence of mesh and sprite submissions `subs`, interleaved in any
order, be made to the submit target.  In the `RenderFrame` that follows, with
wait and signal succeeding, the draw calls issued are, in this order and with
nothing else among them: one `DrawMesh` for every entry of the opaque list (the
entries it held before, then the opaque submissions in submission order), one
`DrawMesh` for every entry of the translucent list (in the order
`translucentDrawOrder`, a rearrangement of the entries held before and the
translucent submissions), and one `Draw` for every entry of the sprite list (the
entries held before, then the sprite submissions in submission order). -/
theorem RenderFrame_draws_opaque_translucent_sprites [LinearOrder F]
    (x : Externals F V Q M D) (subs : List (DrawSubmission V Q D)) (s : State F V Q M D) :
    (callsSince (run x (subs.map DrawSubmission.toOp) s)
        (RenderFrame x true true (run x (subs.map DrawSubmission.toOp) s))).filter Call.isDraw
      = (s.submitted.meshDataVec
          ++ subs.filterMap (DrawSubmission.opaqueEntry x
            s.submitted.constantData_perFrame.g_elapsedSecondCount_simulationTime)).map
          (fun e => Call.drawMesh e.mesh)
        ++ (translucentDrawOrder x (run x (subs.map DrawSubmission.toOp) s).submitted).map
          (fun e => Call.drawMesh e.mesh)
        ++ (s.submitted.renderDataVec ++ subs.filterMap DrawSubmission.spriteEntry).map
          (fun e => Call.drawSprite e.sprite)
    ∧ (translucentDrawOrder x (run x (subs.map DrawSubmission.toOp) s).submitted).Perm
        (s.submitted.meshTranslucentDataVec
          ++ subs.filterMap (DrawSubmission.translucentEntry x
            s.submitted.constantData_perFrame.g_elapsedSecondCount_simulationTime)) := by
  have hl := run_drawSubmissions_submitted x subs s
  have hp := translucentDrawOrder_perm x (run x (subs.map DrawSubmission.toOp) s).submitted
  rw [callsSince_RenderFrame_success, renderCalls_filter_isDraw]
  refine ⟨?_, ?_⟩
  · rw [hl]
  · rw [hl] at hp ⊢
    exact hp

/-- C4: in a `RenderFrame` whose wait and signal succeed, the translucent draws
come after the clear, the per-frame update and the opaque draws and before the
sprite draws, and they draw the entries `translucentDrawIndexed`: every entry of
the snapshot's translucent list exactly once (a permutation of the list with its
submission positions), with the camera-space depth keys non-decreasing, and of two
entries with equal keys the one submitted earlier first.  The keys are compared in
a linear order (no NaN). -/
theorem RenderFrame_translucent_sorted_stable [LinearOrder F]
    (x : Externals F V Q M D) (s : State F V Q M D) :
    callsSince s (RenderFrame x true true s)
      = [Call.clear s.submitted.backgroundColor_0 s.submitted.backgroundColor_1
            s.submitted.backgroundColor_2 s.submitted.backgroundColor_3,
          Call.updatePerFrame s.submitted.constantData_perFrame]
        ++ s.submitted.meshDataVec.flatMap (meshDrawCalls x)
        ++ ((translucentDrawIndexed x s.submitted).map Prod.snd).flatMap (meshDrawCalls x)
        ++ s.submitted.renderDataVec.flatMap spriteDrawCalls
        ++ [Call.buffer]
        ++ s.submitted.meshDataVec.flatMap meshReleaseCalls
        ++ s.submitted.renderDataVec.flatMap spriteReleaseCalls
    ∧ (translucentDrawIndexed x s.submitted).Perm s.submitted.meshTranslucentDataVec.enum
    ∧ ((translucentDrawIndexed x s.submitted).map Prod.snd).Perm
        s.submitted.meshTranslucentDataVec
    ∧ (translucentDrawIndexed x s.submitted).Pairwise (fun a b =>
        depthKey x s.submitted.constantData_perFrame a.2
            < depthKey x s.submitted.constantData_perFrame b.2
        ∨ (depthKey x s.submitted.constantData_perFrame a.2
              = depthKey x s.submitted.constantData_perFrame b.2
            ∧ a.1 < b.1))
    ∧ ((translucentDrawIndexed x s.submitted).map Prod.snd).Pairwise (fun a b =>
        depthKey x s.submitted.constantData_perFrame a
          ≤ depthKey x s.submitted.constantData_perFrame b) := by
  refine ⟨?_, translucentDrawIndexed_perm x _, ?_, translucentDrawIndexed_sorted x _, ?_⟩
  · rw [callsSince_RenderFrame_success, ← translucentDrawOrder_eq_map]
    rfl
  · rw [← translucentDrawOrder_eq_map]
    exact translucentDrawOrder_perm x _
  · rw [← translucentDrawOrder_eq_map]
    exact translucentDrawOrder_sorted x _

/-- C5 (amended): when the translucent list of the rendered snapshot holds three
entries `a`, `b`, `c` in submission order whose camera-space depths satisfy
`b < c < a` (as for 5.0, 1.0, 3.0), a successful `RenderFrame` draws them in the
order `b`, `c`, `a`: ascending depth, the smallest depth first and the largest
last, between the opaque draws and the sprite draws. -/
theorem RenderFrame_three_translucent_ascending [LinearOrder F] (x : Externals F V Q M D)
    (s : State F V Q M D) (a b c : meshData V Q D)
    (hl : s.submitted.meshTranslucentDataVec = [a, b, c])
    (h1 : depthKey x s.submitted.constantData_perFrame b
      < depthKey x s.submitted.constantData_perFrame c)
    (h2 : depthKey x s.submitted.constantData_perFrame c
      < depthKey x s.submitted.constantData_perFrame a) :
    (callsSince s (RenderFrame x true true s)).filter Call.isDraw
      = s.submitted.meshDataVec.map (fun e => Call.drawMesh e.mesh)
        ++ [Call.drawMesh b.mesh, Call.drawMesh c.mesh, Call.drawMesh a.mesh]
        ++ s.submitted.renderDataVec.map (fun e => Call.drawSprite e.sprite) := by
  rw [callsSince_RenderFrame_success, renderCalls_filter_isDraw,
    translucentDrawOrder_three x s.submitted a b c hl h1 h2]
  rfl

/-- C5 (witness): three translucent meshes submitted at depths 5, 1, 3 are drawn
in the order 1, 3, 5. -/
theorem RenderFrame_three_translucent_ascending_witness :
    threeTranslucent.submitted.meshTranslucentDataVec
      = [exampleMesh 1 10 20 5, exampleMesh 1 11 20 1, exampleMesh 1 12 20 3]
    ∧ depthKey exampleExternals threeTranslucent.submitted.constantData_perFrame
        (exampleMesh 1 11 20 1)
      < depthKey exampleExternals threeTranslucent.submitted.constantData_perFrame
        (exampleMesh 1 12 20 3)
    ∧ depthKey exampleExternals threeTranslucent.submitted.constantData_perFrame
        (exampleMesh 1 12 20 3)
      < depthKey exampleExternals threeTranslucent.submitted.constantData_perFrame
        (exampleMesh 1 10 20 5)
    ∧ (callsSince threeTranslucent
        (RenderFrame exampleExternals true true threeTranslucent)).filter Call.isDraw
      = threeTranslucent.submitted.meshDataVec.map (fun e => Call.drawMesh e.mesh)
        ++ [Call.drawMesh 11, Call.drawMesh 12, Call.drawMesh 10]
        ++ threeTranslucent.submitted.renderDataVec.map (fun e => Call.drawSprite e.sprite) :=
  ⟨by decide, by decide, by decide,
    RenderFrame_three_translucent_ascending exampleExternals threeTranslucent
      (exampleMesh 1 10 20 5) (exampleMesh 1 11 20 1) (exampleMesh 1 12 20 3)
      (by decide) (by decide) (by decide)⟩

/-- C5 (counterexample): the three translucent meshes of `threeTranslucent` have the
camera-space depths 5, 1, 3 in submission order (meshes 10, 11, 12), and the
draw calls of a successful `RenderFrame` are not in the order 5, 3, 1 (meshes
10, 12, 11): they are in the order 1, 3, 5. -/
theorem RenderFrame_three_translucent_not_descending :
    threeTranslucent.submitted.meshTranslucentDataVec.map
        (fun e => (e.mesh,
          depthKey exampleExternals threeTranslucent.submitted.constantData_perFrame e))
      = [(10, 5), (11, 1), (12, 3)]
    ∧ (callsSince threeTranslucent
        (RenderFrame exampleExternals true true threeTranslucent)).filter Call.isDraw
      ≠ [Call.drawMesh 10, Call.drawMesh 12, Call.drawMesh 11]
    ∧ (callsSince threeTranslucent
        (RenderFrame exampleExternals true true threeTranslucent)).filter Call.isDraw
      = [Call.drawMesh 11, Call.drawMesh 12, Call.drawMesh 10] := by
  have h : (callsSince threeTranslucent
      (RenderFrame exampleExternals true true threeTranslucent)).filter Call.isDraw
        = [Call.drawMesh 11, Call.drawMesh 12, Call.drawMesh 10] := by
    rw [callsSince_RenderFrame_success, renderCalls_filter_isDraw]
    decide
  exact ⟨by decide, by rw [h]; decide, h⟩

/-! ## Reuse of a snapshot (C6) -/

/-- C6 (failing input evaluated): one translucent mesh is submitted in a window.
After the successful `RenderFrame` that renders it, the translucent list of the
rendered snapshot still holds the entry, and the third successful `RenderFrame`,
which renders the same snapshot instance again with nothing submitted in
between, draws the mesh a second time. -/
theorem RenderFrame_keeps_translucent_list :
    (RenderFrame exampleExternals true true oneTranslucent).rendered.meshTranslucentDataVec
      = [exampleMesh 1 10 20 5]
    ∧ (callsSince oneTranslucent
        (RenderFrame exampleExternals true true oneTranslucent)).filter Call.isDraw
      = [Call.drawMesh 10]
    ∧ (callsSince
        (run exampleExternals [Op.RenderFrame true true, Op.RenderFrame true true]
          oneTranslucent)
        (run exampleExternals
          [Op.RenderFrame true true, Op.RenderFrame true true, Op.RenderFrame true true]
          oneTranslucent)).filter Call.isDraw
      = [Call.drawMesh 10] := by
  refine ⟨by decide, by decide, by decide⟩

/-! ## Submission (C7, C8, C9) -/

/-- C7: `SubmitEffectAndMesh` appends the entry (the submitted data with its
predicted pose) at the end of the submit target's translucent list exactly when
the effect reports `IsAlphaTransparencyEnabled`, and at the end of its opaque
list otherwise; the list that grows keeps its earlier entries in front in their
order, and the other mesh list and the sprite list are unchanged. -/
theorem SubmitEffectAndMesh_appends_by_transparency (x : Externals F V Q M D)
    (data : meshData V Q D) (rigidBodyState : sRigidBodyState V Q D) (s : State F V Q M D) :
    (SubmitEffectAndMesh x data rigidBodyState s).submitted.meshTranslucentDataVec
      = (if x.IsAlphaTransparencyEnabled data.effect then
          s.submitted.meshTranslucentDataVec ++ [predictedData x
            s.submitted.constantData_perFrame.g_elapsedSecondCount_simulationTime
            data rigidBodyState]
        else s.submitted.meshTranslucentDataVec)
    ∧ (SubmitEffectAndMesh x data rigidBodyState s).submitted.meshDataVec
      = (if x.IsAlphaTransparencyEnabled data.effect then s.submitted.meshDataVec
        else s.submitted.meshDataVec ++ [predictedData x
            s.submitted.constantData_perFrame.g_elapsedSecondCount_simulationTime
            data rigidBodyState])
    ∧ (SubmitEffectAndMesh x data rigidBodyState s).submitted.renderDataVec
      = s.submitted.renderDataVec
    ∧ (SubmitEffectAndMesh x data rigidBodyState s).submitted.meshTranslucentDataVec.length
        + (SubmitEffectAndMesh x data rigidBodyState s).submitted.meshDataVec.length
      = s.submitted.meshTranslucentDataVec.length + s.submitted.meshDataVec.length + 1 := by
  rw [SubmitEffectAndMesh_eq]
  by_cases h : x.IsAlphaTransparencyEnabled data.effect = true
  · simp [h]; omega
  · simp [h]; omega

/-- C8: `SubmitEffectAndMesh` issues exactly the three increments for the
effect, the mesh and the texture of its entry, so each of these three counts
goes up by one and no other count changes, and the entry it appends refers to
these same three resources; `SubmitEffectAndSprite` issues exactly the three
increments for the effect, the sprite and the texture, with the same effect on
the counts, and appends the entry itself at the end of the sprite list. -/
theorem Submit_increments_exactly_stored_resources (x : Externals F V Q M D)
    (data : meshData V Q D) (rigidBodyState : sRigidBodyState V Q D) (sprite : renderData)
    (c0 : Resource → Int) (s : State F V Q M D) :
    callsSince s (SubmitEffectAndMesh x data rigidBodyState s)
      = [Call.inc (Resource.effect data.effect), Call.inc (Resource.mesh data.mesh),
          Call.inc (Resource.texture data.texture)]
    ∧ (∀ r, refCount c0 (SubmitEffectAndMesh x data rigidBodyState s).calls r
        = refCount c0 s.calls r
          + (if r = Resource.effect data.effect ∨ r = Resource.mesh data.mesh
              ∨ r = Resource.texture data.texture then 1 else 0))
    ∧ (∃ e : meshData V Q D,
        e.effect = data.effect ∧ e.mesh = data.mesh ∧ e.texture = data.texture
        ∧ ((SubmitEffectAndMesh x data rigidBodyState s).submitted.meshTranslucentDataVec
              = s.submitted.meshTranslucentDataVec ++ [e]
          ∨ (SubmitEffectAndMesh x data rigidBodyState s).submitted.meshDataVec
              = s.submitted.meshDataVec ++ [e]))
    ∧ callsSince s (SubmitEffectAndSprite sprite s)
      = [Call.inc (Resource.effect sprite.effect), Call.inc (Resource.sprite sprite.sprite),
          Call.inc (Resource.texture sprite.texture)]
    ∧ (∀ r, refCount c0 (SubmitEffectAndSprite sprite s).calls r
        = refCount c0 s.calls r
          + (if r = Resource.effect sprite.effect ∨ r = Resource.sprite sprite.sprite
              ∨ r = Resource.texture sprite.texture then 1 else 0))
    ∧ (SubmitEffectAndSprite sprite s).submitted.renderDataVec
      = s.submitted.renderDataVec ++ [sprite] := by
  have hm : (SubmitEffectAndMesh x data rigidBodyState s).calls
      = s.calls ++ data.resources.map Call.inc := by
    rw [SubmitEffectAndMesh_eq]; rfl
  have hs : (SubmitEffectAndSprite sprite s : State F V Q M D).calls
      = s.calls ++ sprite.resources.map Call.inc := by
    rw [SubmitEffectAndSprite_eq]; rfl
  refine ⟨callsSince_of_eq hm, fun r => ?_, ?_, callsSince_of_eq hs, fun r => ?_, ?_⟩
  · rw [hm, refCount_append, netCount_incs, count_mesh_resources]
  · refine ⟨predictedData x
      s.submitted.constantData_perFrame.g_elapsedSecondCount_simulationTime data rigidBodyState,
      rfl, rfl, rfl, ?_⟩
    rw [SubmitEffectAndMesh_eq]
    by_cases h : x.IsAlphaTransparencyEnabled data.effect = true
    · left; simp [h]
    · right; simp [h]
  · rw [hs, refCount_append, netCount_incs, count_sprite_resources]
  · rw [SubmitEffectAndSprite_eq]; simp

/-- C9 (amended): `SubmitBackgroundColor r g b a` stores `r`, `g`, `b`, `a` in
the four background colour channels of the submit target and changes nothing
else in the state; if only other submissions and `RenderFrame` calls whose wait
fails follow, the next `RenderFrame` whose wait and signal succeed begins with
the call `Clear(r, g, b, a)`, and this is its only call of `Clear`. -/
theorem SubmitBackgroundColor_reaches_Clear [LinearOrder F] (x : Externals F V Q M D)
    (r g b a : F) (ops : List (Op F V Q D)) (s : State F V Q M D)
    (h : ∀ o ∈ ops, o.keepsBackgroundColor = true) :
    SubmitBackgroundColor r g b a s
      = s.setSubmitted { s.submitted with
          backgroundColor_0 := r, backgroundColor_1 := g,
          backgroundColor_2 := b, backgroundColor_3 := a }
    ∧ (callsSince (run x ops (SubmitBackgroundColor r g b a s))
        (RenderFrame x true true (run x ops (SubmitBackgroundColor r g b a s)))).head?
      = some (Call.clear r g b a)
    ∧ (callsSince (run x ops (SubmitBackgroundColor r g b a s))
        (RenderFrame x true true (run x ops (SubmitBackgroundColor r g b a s)))).filter
          Call.isClear
      = [Call.clear r g b a] := by
  have hk := run_keeps_backgroundColor x ops h (SubmitBackgroundColor r g b a s)
  rw [SubmitBackgroundColor_eq] at hk
  simp only [backgroundColor, State.setSubmitted_submitted, List.cons.injEq, and_true] at hk
  obtain ⟨h0, h1, h2, h3⟩ := hk
  refine ⟨SubmitBackgroundColor_eq r g b a s, ?_, ?_⟩
  · rw [callsSince_RenderFrame_success]
    simp [renderCalls, SubmitBackgroundColor_eq, h0, h1, h2, h3]
  · rw [callsSince_RenderFrame_success, renderCalls_filter_isClear]
    simp [SubmitBackgroundColor_eq, h0, h1, h2, h3]

/-- C9 (witness): the colour (1, 2, 3, 10) is submitted, then a translucent mesh
and the elapsed time, then a `RenderFrame` fails to wait; the next `RenderFrame`
begins with `Clear(1, 2, 3, 10)`. -/
theorem SubmitBackgroundColor_reaches_Clear_witness :
    (∀ o ∈ [submitExampleMesh 1 10 20 5, Op.SubmitElapsedTime 7 8, Op.RenderFrame false true],
      o.keepsBackgroundColor = true)
    ∧ SubmitBackgroundColor 1 2 3 10 (initialState exampleFrame exampleFrame)
      = (initialState exampleFrame exampleFrame).setSubmitted
          { (initialState exampleFrame exampleFrame).submitted with
            backgroundColor_0 := 1, backgroundColor_1 := 2,
            backgroundColor_2 := 3, backgroundColor_3 := 10 }
    ∧ (callsSince
        (run exampleExternals
          [submitExampleMesh 1 10 20 5, Op.SubmitElapsedTime 7 8, Op.RenderFrame false true]
          (SubmitBackgroundColor 1 2 3 10 (initialState exampleFrame exampleFrame)))
        (RenderFrame exampleExternals true true
          (run exampleExternals
            [submitExampleMesh 1 10 20 5, Op.SubmitElapsedTime 7 8, Op.RenderFrame false true]
            (SubmitBackgroundColor 1 2 3 10 (initialState exampleFrame exampleFrame))))).head?
      = some (Call.clear 1 2 3 10)
    ∧ (callsSince
        (run exampleExternals
          [submitExampleMesh 1 10 20 5, Op.SubmitElapsedTime 7 8, Op.RenderFrame false true]
          (SubmitBackgroundColor 1 2 3 10 (initialState exampleFrame exampleFrame)))
        (RenderFrame exampleExternals true true
          (run exampleExternals
            [submitExampleMesh 1 10 20 5, Op.SubmitElapsedTime 7 8, Op.RenderFrame false true]
            (SubmitBackgroundColor 1 2 3 10
              (initialState exampleFrame exampleFrame))))).filter Call.isClear
      = [Call.clear 1 2 3 10] :=
  ⟨by decide,
    SubmitBackgroundColor_reaches_Clear exampleExternals 1 2 3 10
      [submitExampleMesh 1 10 20 5, Op.SubmitElapsedTime 7 8, Op.RenderFrame false true]
      (initialState exampleFrame exampleFrame) (by decide)⟩

/-- C9 (counterexample): the colour (1, 2, 3, 10) is the last background colour
submitted; a `RenderFrame` then waits successfully and fails to signal, which
exchanges the pointers without rendering; the next `RenderFrame` whose wait and
signal succeed exchanges them again and calls `Clear(0, 0, 0, 0)`, the colour of
the other snapshot, not `Clear(1, 2, 3, 10)`. -/
theorem SubmitBackgroundColor_missed_after_failed_signal :
    (callsSince
        (run exampleExternals [Op.SubmitBackgroundColor 1 2 3 10, Op.RenderFrame true false]
          (initialState exampleFrame exampleFrame))
        (RenderFrame exampleExternals true true
          (run exampleExternals [Op.SubmitBackgroundColor 1 2 3 10, Op.RenderFrame true false]
            (initialState exampleFrame exampleFrame)))).filter Call.isClear
      = [Call.clear 0 0 0 0]
    ∧ (callsSince
        (run exampleExternals [Op.SubmitBackgroundColor 1 2 3 10, Op.RenderFrame true false]
          (initialState exampleFrame exampleFrame))
        (RenderFrame exampleExternals true true
          (run exampleExternals [Op.SubmitBackgroundColor 1 2 3 10, Op.RenderFrame true false]
            (initialState exampleFrame exampleFrame)))).filter Call.isClear
      ≠ [Call.clear 1 2 3 10] := by
  refine ⟨by decide, by decide⟩

/-! ## Failed wait and failed signal (C10) -/

/-- C10: when the wait fails, `RenderFrame` leaves both snapshots and both
pointers as they were and issues only its two diagnostics: no clear, no
constant-buffer update, no bind or draw, no present, no decrement.  When the
wait succeeds and the signal fails, the two pointers have been exchanged, both
snapshots (so all six draw lists) are as they were, and again only the two
diagnostics are issued. -/
theorem RenderFrame_failure_aborts_frame [LinearOrder F] (x : Externals F V Q M D)
    (signalResult : Bool) (s : State F V Q M D) :
    (RenderFrame x false signalResult s).s_dataRequiredToRenderAFrame
      = s.s_dataRequiredToRenderAFrame
    ∧ (RenderFrame x false signalResult s).s_dataBeingSubmittedByApplicationThread
      = s.s_dataBeingSubmittedByApplicationThread
    ∧ (RenderFrame x false signalResult s).s_dataBeingRenderedByRenderThread
      = s.s_dataBeingRenderedByRenderThread
    ∧ callsSince s (RenderFrame x false signalResult s) = [Call.logError, Call.userPrint]
    ∧ (∀ c ∈ callsSince s (RenderFrame x false signalResult s), c.isFrameWork = false)
    ∧ (RenderFrame x true false s).s_dataRequiredToRenderAFrame
      = s.s_dataRequiredToRenderAFrame
    ∧ (RenderFrame x true false s).s_dataBeingSubmittedByApplicationThread
      = s.s_dataBeingRenderedByRenderThread
    ∧ (RenderFrame x true false s).s_dataBeingRenderedByRenderThread
      = s.s_dataBeingSubmittedByApplicationThread
    ∧ callsSince s (RenderFrame x true false s) = [Call.logError, Call.userPrint]
    ∧ (∀ c ∈ callsSince s (RenderFrame x true false s), c.isFrameWork = false) := by
  have h1 : RenderFrame x false signalResult s = s.emit [Call.logError, Call.userPrint] := by
    simp [RenderFrame, reportFailure]
  have h2 : RenderFrame x true false s
      = (swapPointers s).emit [Call.logError, Call.userPrint] := by
    simp [RenderFrame, reportFailure]
  have c1 : callsSince s (RenderFrame x false signalResult s)
      = [Call.logError, Call.userPrint] := callsSince_of_eq (by rw [h1]; rfl)
  have c2 : callsSince s (RenderFrame x true false s)
      = [Call.logError, Call.userPrint] := callsSince_of_eq (by rw [h2]; rfl)
  refine ⟨by rw [h1]; rfl, by rw [h1]; rfl, by rw [h1]; rfl, c1, ?_,
    by rw [h2]; rfl, by rw [h2]; rfl, by rw [h2]; rfl, c2, ?_⟩
  · rw [c1]; intro c hc; simp at hc; rcases hc with rfl | rfl <;> rfl
  · rw [c2]; intro c hc; simp at hc; rcases hc with rfl | rfl <;> rfl

/-! ## The two pointers (C11) -/

theorem run_pointers_distinct [LinearOrder F] (x : Externals F V Q M D)
    (d0 d1 : sDataRequiredToRenderAFrame F V Q M D) (ops : List (Op F V Q D)) :
    (run x ops (initialState d0 d1)).s_dataBeingSubmittedByApplicationThread
      ≠ (run x ops (initialState d0 d1)).s_dataBeingRenderedByRenderThread :=
  (balanced_run x ops (balanced_initialState d0 d1)).1

theorem setSubmitted_rendered_of_ne (s : State F V Q M D)
    (h : s.s_dataBeingSubmittedByApplicationThread ≠ s.s_dataBeingRenderedByRenderThread)
    (d : sDataRequiredToRenderAFrame F V Q M D) : (s.setSubmitted d).rendered = s.rendered := by
  simp [State.setSubmitted, State.rendered, State.store, Function.update, Ne.symm h]

theorem setRendered_submitted_of_ne (s : State F V Q M D)
    (h : s.s_dataBeingSubmittedByApplicationThread ≠ s.s_dataBeingRenderedByRenderThread)
    (d : sDataRequiredToRenderAFrame F V Q M D) : (s.setRendered d).submitted = s.submitted := by
  simp [State.setRendered, State.submitted, State.store, Function.update, h]

theorem RenderFrame_pointers [LinearOrder F] (x : Externals F V Q M D) (w g : Bool)
    (s : State F V Q M D) :
    (RenderFrame x w g s).s_dataBeingSubmittedByApplicationThread
      = (if w then s.s_dataBeingRenderedByRenderThread
          else s.s_dataBeingSubmittedByApplicationThread)
    ∧ (RenderFrame x w g s).s_dataBeingRenderedByRenderThread
      = (if w then s.s_dataBeingSubmittedByApplicationThread
          else s.s_dataBeingRenderedByRenderThread) := by
  cases w
  · simp [RenderFrame, reportFailure]
  · cases g
    · simp [RenderFrame, reportFailure, swapPointers]
    · rw [RenderFrame_success_eq]
      simp [swapPointers]

/-- C11: the submit-target reference starts at instance 0 and the render-source
reference at instance 1, and in every state reached from the initial state by
submission calls and `RenderFrame` calls the two references differ.  A
`RenderFrame` whose wait succeeds exchanges them: the new render source is the
previous submit target and the new submit target the previous render source; the
exchange itself leaves both snapshots as they were; a `RenderFrame` whose wait
fails leaves the references alone.  What a frame renders is the snapshot that was
the submit target when it was called: its calls are those of rendering
`s.submitted`, the snapshot filled in the window before the call. -/
theorem pointers_name_distinct_snapshots_and_swap [LinearOrder F] (x : Externals F V Q M D)
    (d0 d1 : sDataRequiredToRenderAFrame F V Q M D) (ops : List (Op F V Q D))
    (signalResult : Bool) :
    (initialState d0 d1).s_dataBeingSubmittedByApplicationThread = 0
    ∧ (initialState d0 d1).s_dataBeingRenderedByRenderThread = 1
    ∧ (run x ops (initialState d0 d1)).s_dataBeingSubmittedByApplicationThread
      ≠ (run x ops (initialState d0 d1)).s_dataBeingRenderedByRenderThread
    ∧ (RenderFrame x true signalResult
        (run x ops (initialState d0 d1))).s_dataBeingRenderedByRenderThread
      = (run x ops (initialState d0 d1)).s_dataBeingSubmittedByApplicationThread
    ∧ (RenderFrame x true signalResult
        (run x ops (initialState d0 d1))).s_dataBeingSubmittedByApplicationThread
      = (run x ops (initialState d0 d1)).s_dataBeingRenderedByRenderThread
    ∧ (RenderFrame x false signalResult
        (run x ops (initialState d0 d1))).s_dataBeingSubmittedByApplicationThread
      = (run x ops (initialState d0 d1)).s_dataBeingSubmittedByApplicationThread
    ∧ (RenderFrame x false signalResult
        (run x ops (initialState d0 d1))).s_dataBeingRenderedByRenderThread
      = (run x ops (initialState d0 d1)).s_dataBeingRenderedByRenderThread
    ∧ (swapPointers (run x ops (initialState d0 d1))).s_dataRequiredToRenderAFrame
      = (run x ops (initialState d0 d1)).s_dataRequiredToRenderAFrame
    ∧ (swapPointers (run x ops (initialState d0 d1))).rendered
      = (run x ops (initialState d0 d1)).submitted
    ∧ (swapPointers (run x ops (initialState d0 d1))).submitted
      = (run x ops (initialState d0 d1)).rendered
    ∧ RenderFrame x true true (run x ops (initialState d0 d1))
      = release (drawSpritesAndBuffer (drawTranslucent x (drawOpaque x
          (clearAndUpdate (swapPointers (run x ops (initialState d0 d1)))))))
    ∧ callsSince (run x ops (initialState d0 d1))
        (RenderFrame x true true (run x ops (initialState d0 d1)))
      = renderCalls x (run x ops (initialState d0 d1)).submitted := by
  refine ⟨rfl, rfl, run_pointers_distinct x d0 d1 ops, ?_, ?_, ?_, ?_, rfl, rfl, rfl, ?_,
    callsSince_RenderFrame_success x _⟩
  · simpa using (RenderFrame_pointers x true signalResult _).2
  · simpa using (RenderFrame_pointers x true signalResult _).1
  · simpa using (RenderFrame_pointers x false signalResult _).1
  · simpa using (RenderFrame_pointers x false signalResult _).2
  · simp [RenderFrame]

/-! ## What each call touches (C13) -/

theorem reached_pointers_distinct [LinearOrder F] (x : Externals F V Q M D)
    (d0 d1 : sDataRequiredToRenderAFrame F V Q M D) (ops : List (Op F V Q D)) :
    (reached x d0 d1 ops).s_dataBeingSubmittedByApplicationThread
      ≠ (reached x d0 d1 ops).s_dataBeingRenderedByRenderThread :=
  run_pointers_distinct x d0 d1 ops

theorem RenderFrame_submitted_of_ne [LinearOrder F] (x : Externals F V Q M D) (g : Bool)
    (s : State F V Q M D)
    (h : s.s_dataBeingSubmittedByApplicationThread ≠ s.s_dataBeingRenderedByRenderThread) :
    (RenderFrame x true g s).submitted = s.rendered := by
  cases g
  · simp [RenderFrame, reportFailure, swapPointers_submitted]
  · rw [RenderFrame_success_eq, State.emit_submitted,
      setRendered_submitted_of_ne _ (fun h1 => h h1.symm)]
    rfl

/-- C13: in every state reached from the initial state, each of the five
submission functions leaves both pointers and the render-source snapshot as they
were, and the new submit-target snapshot is given by the old submit-target
snapshot and the arguments alone.  A `RenderFrame` whose wait succeeds leaves the
snapshot that becomes the submit target exactly as it was (it is the previous
render source); when the signal succeeds too, its calls and the rendered snapshot
it leaves are given by the new render-source snapshot alone, and when the signal
fails the new render source is the previous submit target unchanged.  A
`RenderFrame` whose wait fails changes neither snapshot. -/
theorem submission_and_render_touch_only_their_snapshot [LinearOrder F]
    (x : Externals F V Q M D) (d0 d1 : sDataRequiredToRenderAFrame F V Q M D)
    (ops : List (Op F V Q D)) (systemTime simulationTime r g b a : F)
    (camera : cCamera F V Q D) (data : meshData V Q D)
    (rigidBodyState : sRigidBodyState V Q D) (sprite : renderData) (signalResult : Bool) :
    ((SubmitElapsedTime systemTime simulationTime (reached x d0 d1 ops)).rendered
        = (reached x d0 d1 ops).rendered
      ∧ (SubmitElapsedTime systemTime simulationTime
          (reached x d0 d1 ops)).s_dataBeingSubmittedByApplicationThread
        = (reached x d0 d1 ops).s_dataBeingSubmittedByApplicationThread
      ∧ (SubmitElapsedTime systemTime simulationTime
          (reached x d0 d1 ops)).s_dataBeingRenderedByRenderThread
        = (reached x d0 d1 ops).s_dataBeingRenderedByRenderThread
      ∧ (SubmitElapsedTime systemTime simulationTime (reached x d0 d1 ops)).submitted
        = { (reached x d0 d1 ops).submitted with
            constantData_perFrame := { (reached x d0 d1 ops).submitted.constantData_perFrame with
              g_elapsedSecondCount_systemTime := systemTime
              g_elapsedSecondCount_simulationTime := simulationTime } })
    ∧ ((SubmitBackgroundColor r g b a (reached x d0 d1 ops)).rendered
        = (reached x d0 d1 ops).rendered
      ∧ (SubmitBackgroundColor r g b a
          (reached x d0 d1 ops)).s_dataBeingSubmittedByApplicationThread
        = (reached x d0 d1 ops).s_dataBeingSubmittedByApplicationThread
      ∧ (SubmitBackgroundColor r g b a
          (reached x d0 d1 ops)).s_dataBeingRenderedByRenderThread
        = (reached x d0 d1 ops).s_dataBeingRenderedByRenderThread
      ∧ (SubmitBackgroundColor r g b a (reached x d0 d1 ops)).submitted
        = { (reached x d0 d1 ops).submitted with
            backgroundColor_0 := r, backgroundColor_1 := g,
            backgroundColor_2 := b, backgroundColor_3 := a })
    ∧ ((SubmitCamera x camera (reached x d0 d1 ops)).rendered
        = (reached x d0 d1 ops).rendered
      ∧ (SubmitCamera x camera (reached x d0 d1 ops)).s_dataBeingSubmittedByApplicationThread
        = (reached x d0 d1 ops).s_dataBeingSubmittedByApplicationThread
      ∧ (SubmitCamera x camera (reached x d0 d1 ops)).s_dataBeingRenderedByRenderThread
        = (reached x d0 d1 ops).s_dataBeingRenderedByRenderThread
      ∧ (SubmitCamera x camera (reached x d0 d1 ops)).submitted
        = { (reached x d0 d1 ops).submitted with
            constantData_perFrame := { (reached x d0 d1 ops).submitted.constantData_perFrame with
              g_transform_worldToCamera := x.CreateWorldToCameraTransform
                (x.PredictFutureOrientation camera.m_rigidBodyState
                  (reached x d0 d1
                    ops).submitted.constantData_perFrame.g_elapsedSecondCount_simulationTime)
                (x.PredictFuturePosition camera.m_rigidBodyState
                  (reached x d0 d1
                    ops).submitted.constantData_perFrame.g_elapsedSecondCount_simulationTime)
              g_transform_cameraToProjected :=
                x.CreateCameraToProjectedTransform_perspective
                  camera.m_verticalFieldOfView_inRadians camera.m_aspectRatio
                  camera.m_z_nearPlane camera.m_z_farPlane } })
    ∧ ((SubmitEffectAndMesh x data rigidBodyState (reached x d0 d1 ops)).rendered
        = (reached x d0 d1 ops).rendered
      ∧ (SubmitEffectAndMesh x data rigidBodyState
          (reached x d0 d1 ops)).s_dataBeingSubmittedByApplicationThread
        = (reached x d0 d1 ops).s_dataBeingSubmittedByApplicationThread
      ∧ (SubmitEffectAndMesh x data rigidBodyState
          (reached x d0 d1 ops)).s_dataBeingRenderedByRenderThread
        = (reached x d0 d1 ops).s_dataBeingRenderedByRenderThread
      ∧ (SubmitEffectAndMesh x data rigidBodyState (reached x d0 d1 ops)).submitted
        = (if x.IsAlphaTransparencyEnabled data.effect then
            { (reached x d0 d1 ops).submitted with
              meshTranslucentDataVec := (reached x d0 d1 ops).submitted.meshTranslucentDataVec
                ++ [predictedData x (reached x d0 d1
                    ops).submitted.constantData_perFrame.g_elapsedSecondCount_simulationTime
                  data rigidBodyState] }
          else
            { (reached x d0 d1 ops).submitted with
              meshDataVec := (reached x d0 d1 ops).submitted.meshDataVec
                ++ [predictedData x (reached x d0 d1
                    ops).submitted.constantData_perFrame.g_elapsedSecondCount_simulationTime
                  data rigidBodyState] }))
    ∧ ((SubmitEffectAndSprite sprite (reached x d0 d1 ops)).rendered
        = (reached x d0 d1 ops).rendered
      ∧ (SubmitEffectAndSprite sprite
          (reached x d0 d1 ops)).s_dataBeingSubmittedByApplicationThread
        = (reached x d0 d1 ops).s_dataBeingSubmittedByApplicationThread
      ∧ (SubmitEffectAndSprite sprite
          (reached x d0 d1 ops)).s_dataBeingRenderedByRenderThread
        = (reached x d0 d1 ops).s_dataBeingRenderedByRenderThread
      ∧ (SubmitEffectAndSprite sprite (reached x d0 d1 ops)).submitted
        = { (reached x d0 d1 ops).submitted with
            renderDataVec := (reached x d0 d1 ops).submitted.renderDataVec ++ [sprite] })
    ∧ ((RenderFrame x true signalResult (reached x d0 d1 ops)).submitted
        = (reached x d0 d1 ops).rendered
      ∧ (RenderFrame x true true (reached x d0 d1 ops)).rendered
        = renderedAfter x (reached x d0 d1 ops).submitted
      ∧ callsSince (reached x d0 d1 ops) (RenderFrame x true true (reached x d0 d1 ops))
        = renderCalls x (reached x d0 d1 ops).submitted
      ∧ (RenderFrame x true false (reached x d0 d1 ops)).rendered
        = (reached x d0 d1 ops).submitted
      ∧ (RenderFrame x false signalResult (reached x d0 d1 ops)).submitted
        = (reached x d0 d1 ops).submitted
      ∧ (RenderFrame x false signalResult (reached x d0 d1 ops)).rendered
        = (reached x d0 d1 ops).rendered) := by
  have h := reached_pointers_distinct x d0 d1 ops
  generalize reached x d0 d1 ops = s at h ⊢
  refine ⟨⟨?_, rfl, rfl, ?_⟩, ⟨?_, ?_, ?_, ?_⟩, ⟨?_, rfl, rfl, ?_⟩, ⟨?_, ?_, ?_, ?_⟩,
    ⟨?_, ?_, ?_, ?_⟩, ⟨RenderFrame_submitted_of_ne x signalResult s h, ?_,
      callsSince_RenderFrame_success x s, ?_, ?_, ?_⟩⟩
  · exact setSubmitted_rendered_of_ne s h _
  · simp [SubmitElapsedTime]
  · rw [SubmitBackgroundColor_eq]; exact setSubmitted_rendered_of_ne s h _
  · rw [SubmitBackgroundColor_eq]; rfl
  · rw [SubmitBackgroundColor_eq]; rfl
  · rw [SubmitBackgroundColor_eq]; simp
  · exact setSubmitted_rendered_of_ne s h _
  · simp [SubmitCamera]
  · rw [SubmitEffectAndMesh_eq, State.emit_rendered]; exact setSubmitted_rendered_of_ne s h _
  · rw [SubmitEffectAndMesh_eq]; rfl
  · rw [SubmitEffectAndMesh_eq]; rfl
  · rw [SubmitEffectAndMesh_eq]; simp
  · rw [SubmitEffectAndSprite_eq, State.emit_rendered]; exact setSubmitted_rendered_of_ne s h _
  · rw [SubmitEffectAndSprite_eq]; rfl
  · rw [SubmitEffectAndSprite_eq]; rfl
  · rw [SubmitEffectAndSprite_eq]; simp
  · rw [RenderFrame_success_eq]; simp [swapPointers_rendered]
  · simp [RenderFrame, reportFailure, swapPointers_rendered]
  · simp [RenderFrame, reportFailure]
  · simp [RenderFrame, reportFailure]

/-! ## Reference counts during a frame (C12) -/

theorem renderCalls_eq_drawPhase_release [LinearOrder F] (x : Externals F V Q M D)
    (d : sDataRequiredToRenderAFrame F V Q M D) :
    renderCalls x d = drawPhaseCalls x d ++ releaseCalls d := by
  simp [renderCalls, drawPhaseCalls, releaseCalls, List.append_assoc]

theorem heldCount_setRendered_perDraw (s : State F V Q M D) (m : sPerDrawCall M)
    (r : Resource) :
    heldCount (s.setRendered { s.rendered with constantData_perDraw := m }) r
      = heldCount s r := by
  have h := heldCount_store s s.s_dataBeingRenderedByRenderThread
    { s.rendered with constantData_perDraw := m } r
  have h1 : frameHeld ({ s.rendered with constantData_perDraw := m } :
      sDataRequiredToRenderAFrame F V Q M D) r
      = frameHeld (s.s_dataRequiredToRenderAFrame s.s_dataBeingRenderedByRenderThread) r := rfl
  rw [h1] at h
  have h2 : (heldCount (s.setRendered { s.rendered with constantData_perDraw := m }) r : Int)
      = heldCount s r := by
    rw [State.setRendered, h]; ring
  exact_mod_cast h2

theorem heldCount_emit (s : State F V Q M D) (cs : List (Call F M)) (r : Resource) :
    heldCount (s.emit cs) r = heldCount s r := rfl

theorem heldCount_swapPointers (s : State F V Q M D) (r : Resource) :
    heldCount (swapPointers s) r = heldCount s r := rfl

theorem heldCount_drawMeshStep (x : Externals F V Q M D) (s : State F V Q M D)
    (data : meshData V Q D) (r : Resource) :
    heldCount (drawMeshStep x s data) r = heldCount s r := by
  rw [drawMeshStep_eq, heldCount_emit, heldCount_setRendered_perDraw]

theorem heldCount_depthKeyStep (x : Externals F V Q M D)
    (acc : State F V Q M D × List (F × Nat)) (e : Nat × meshData V Q D) (r : Resource) :
    heldCount (depthKeyStep x acc e).1 r = heldCount acc.1 r := by
  simp only [depthKeyStep]
  exact heldCount_setRendered_perDraw _ _ _

theorem heldCount_drawTranslucentStep (x : Externals F V Q M D) (s : State F V Q M D)
    (p : F × Nat) (r : Resource) :
    heldCount (drawTranslucentStep x s p) r = heldCount s r := by
  unfold drawTranslucentStep
  cases s.rendered.meshTranslucentDataVec[p.2]? with
  | none => rfl
  | some data => exact heldCount_drawMeshStep x s data r

theorem heldCount_drawSpriteStep (s : State F V Q M D) (data : renderData) (r : Resource) :
    heldCount (drawSpriteStep s data) r = heldCount s r := rfl

theorem heldCount_clearAndUpdate (s : State F V Q M D) (r : Resource) :
    heldCount (clearAndUpdate s) r = heldCount s r := rfl

theorem beforeRelease_eq [LinearOrder F] (x : Externals F V Q M D) (s : State F V Q M D) :
    beforeRelease x s
      = ((swapPointers s).setRendered { s.submitted with
          constantData_perDraw :=
            lastPerDraw x (lastPerDraw x (lastPerDraw x s.submitted.constantData_perDraw
              s.submitted.meshDataVec) s.submitted.meshTranslucentDataVec)
              (translucentDrawOrder x s.submitted) }).emit
          (drawPhaseCalls x s.submitted) := by
  unfold beforeRelease
  rw [← swapPointers_rendered s]
  generalize swapPointers s = t
  simp only [drawSpritesAndBuffer, drawOpaque, clearAndUpdate, drawTranslucent_eq,
    foldl_drawMeshStep, foldl_drawSpriteStep]
  simp [drawPhaseCalls, translucentDrawOrder, depthKeys]

theorem heldCount_beforeRelease [LinearOrder F] (x : Externals F V Q M D)
    (s : State F V Q M D) (r : Resource) :
    heldCount (beforeRelease x s) r = heldCount s r := by
  rw [beforeRelease_eq, heldCount_emit, ← swapPointers_rendered s,
    heldCount_setRendered_perDraw, heldCount_swapPointers]

theorem refDelta_drawPhaseCalls [LinearOrder F] (x : Externals F V Q M D)
    (d : sDataRequiredToRenderAFrame F V Q M D) (r : Resource) :
    ∀ c ∈ drawPhaseCalls x d, refDelta r c = 0 := by
  intro c hc
  simp only [drawPhaseCalls, List.mem_append, List.mem_flatMap, List.mem_cons,
    List.mem_singleton, List.not_mem_nil, or_false, meshDrawCalls, spriteDrawCalls] at hc
  rcases hc with (((((rfl | rfl) | ⟨e, -, h⟩) | ⟨e, -, h⟩) | ⟨e, -, h⟩) | rfl)
  · rfl
  · rfl
  · rcases h with rfl | rfl | rfl | rfl <;> rfl
  · rcases h with rfl | rfl | rfl | rfl <;> rfl
  · rcases h with rfl | rfl | rfl <;> rfl
  · rfl

theorem netCount_eq_zero_of_forall (r : Resource) (cs : List (Call F M))
    (h : ∀ c ∈ cs, refDelta r c = 0) : netCount r cs = 0 := by
  induction cs with
  | nil => rfl
  | cons c cs ih =>
    have h1 : netCount r (c :: cs) = refDelta r c + netCount r cs := by simp [netCount]
    rw [h1, h c (List.mem_cons_self _ _), ih (fun c1 hc1 => h c1 (List.mem_cons_of_mem _ hc1))]
    rfl

theorem netCount_take_drawPhaseCalls [LinearOrder F] (x : Externals F V Q M D)
    (d : sDataRequiredToRenderAFrame F V Q M D) (r : Resource) (n : Nat) :
    netCount r ((drawPhaseCalls x d).take n) = 0 :=
  netCount_eq_zero_of_forall r _
    (fun c hc => refDelta_drawPhaseCalls x d r c (List.mem_of_mem_take hc))

theorem drawPhaseCalls_filter_isDec [LinearOrder F] (x : Externals F V Q M D)
    (d : sDataRequiredToRenderAFrame F V Q M D) :
    (drawPhaseCalls x d).filter Call.isDec = [] := by
  unfold drawPhaseCalls
  simp only [List.filter_append,
    filter_flatMap_eq_nil Call.isDec (meshDrawCalls x) (fun _ => rfl),
    filter_flatMap_eq_nil Call.isDec (spriteDrawCalls : renderData → List (Call F M))
      (fun _ => rfl)]
  simp [Call.isDec]

theorem releaseCalls_filter_isDraw (d : sDataRequiredToRenderAFrame F V Q M D) :
    (releaseCalls d : List (Call F M)).filter Call.isDraw = [] := by
  unfold releaseCalls
  simp only [List.filter_append,
    filter_flatMap_eq_nil Call.isDraw (meshReleaseCalls : meshData V Q D → List (Call F M))
      (fun _ => rfl),
    filter_flatMap_eq_nil Call.isDraw (spriteReleaseCalls : renderData → List (Call F M))
      (fun _ => rfl)]
  rfl

/-- C12: in every state `s` reached from the initial state by submission calls and
`RenderFrame` calls, the increments minus the decrements issued so far for a
resource are at least the number of references to it held in the six draw lists.
A `RenderFrame` whose wait and signal succeed issues first the calls of its draw
phase (up to the present), then those of its release block; all its draw calls
are in the draw phase and the draw phase holds no decrement, so no decrement
comes before a draw call; no step of the draw phase changes the number of held
references; and after any number `n` of calls of the draw phase the count is
still at least the number of held references. -/
theorem reference_count_covers_held_entries [LinearOrder F] (x : Externals F V Q M D)
    (d0 d1 : sDataRequiredToRenderAFrame F V Q M D) (ops : List (Op F V Q D))
    (r : Resource) (n : Nat) :
    (heldCount (reached x d0 d1 ops) r : Int) ≤ netCount r (reached x d0 d1 ops).calls
    ∧ RenderFrame x true true (reached x d0 d1 ops)
      = release (beforeRelease x (reached x d0 d1 ops))
    ∧ callsSince (reached x d0 d1 ops) (beforeRelease x (reached x d0 d1 ops))
      = drawPhaseCalls x (reached x d0 d1 ops).submitted
    ∧ callsSince (reached x d0 d1 ops) (RenderFrame x true true (reached x d0 d1 ops))
      = drawPhaseCalls x (reached x d0 d1 ops).submitted
        ++ releaseCalls (reached x d0 d1 ops).submitted
    ∧ (releaseCalls (reached x d0 d1 ops).submitted : List (Call F M)).filter Call.isDraw = []
    ∧ (drawPhaseCalls x (reached x d0 d1 ops).submitted).filter Call.isDec = []
    ∧ (∀ t : State F V Q M D, heldCount (swapPointers t) r = heldCount t r)
    ∧ (∀ t : State F V Q M D, heldCount (clearAndUpdate t) r = heldCount t r)
    ∧ (∀ (t : State F V Q M D) (data : meshData V Q D),
        heldCount (drawMeshStep x t data) r = heldCount t r)
    ∧ (∀ (acc : State F V Q M D × List (F × Nat)) (e : Nat × meshData V Q D),
        heldCount (depthKeyStep x acc e).1 r = heldCount acc.1 r)
    ∧ (∀ (t : State F V Q M D) (p : F × Nat),
        heldCount (drawTranslucentStep x t p) r = heldCount t r)
    ∧ (∀ (t : State F V Q M D) (data : renderData),
        heldCount (drawSpriteStep t data) r = heldCount t r)
    ∧ heldCount (beforeRelease x (reached x d0 d1 ops)) r = heldCount (reached x d0 d1 ops) r
    ∧ (heldCount (reached x d0 d1 ops) r : Int)
      ≤ netCount r ((reached x d0 d1 ops).calls
          ++ (drawPhaseCalls x (reached x d0 d1 ops).submitted).take n) := by
  have hb : Balanced (reached x d0 d1 ops) := balanced_run x ops (balanced_initialState d0 d1)
  generalize reached x d0 d1 ops = s at hb ⊢
  refine ⟨le_of_eq (hb.2 r).symm, by simp [RenderFrame, beforeRelease], ?_, ?_,
    releaseCalls_filter_isDraw _, drawPhaseCalls_filter_isDec x _,
    fun t => heldCount_swapPointers t r, fun t => heldCount_clearAndUpdate t r,
    fun t data => heldCount_drawMeshStep x t data r,
    fun acc e => heldCount_depthKeyStep x acc e r,
    fun t p => heldCount_drawTranslucentStep x t p r,
    fun t data => heldCount_drawSpriteStep t data r,
    heldCount_beforeRelease x s r, ?_⟩
  · apply callsSince_of_eq
    rw [beforeRelease_eq]
    rfl
  · rw [callsSince_RenderFrame_success, renderCalls_eq_drawPhase_release]
  · rw [netCount_append, netCount_take_drawPhaseCalls, add_zero]
    exact le_of_eq (hb.2 r).symm

/-! ## The handshake (C14) -/

theorem step_gate [LinearOrder F] (x : Externals F V Q M D) (o : GateOp)
    (sys : System F V Q M D) :
    ((o.step x sys).1.gate, (o.step x sys).2) = o.onGate sys.gate := by
  obtain ⟨⟨a⟩, ⟨b⟩, gr⟩ := sys
  cases o with
  | WaitUntilDataForANewFrameCanBeSubmitted =>
    cases a <;> cases b <;> rfl
  | SignalThatAllDataForAFrameHasBeenSubmitted result =>
    cases a <;> cases b <;> cases result <;> rfl
  | RenderFrame signalResult =>
    cases a <;> cases b <;> cases signalResult <;> rfl

theorem step_gate_fst [LinearOrder F] (x : Externals F V Q M D) (o : GateOp)
    (sys : System F V Q M D) : (o.step x sys).1.gate = (o.onGate sys.gate).1 :=
  congrArg Prod.fst (step_gate x o sys)

theorem step_gate_snd [LinearOrder F] (x : Externals F V Q M D) (o : GateOp)
    (sys : System F V Q M D) : (o.step x sys).2 = (o.onGate sys.gate).2 :=
  congrArg Prod.snd (step_gate x o sys)

theorem gateRun_append [LinearOrder F] (x : Externals F V Q M D) (a b : List GateOp)
    (sys : System F V Q M D) : gateRun x (a ++ b) sys = gateRun x b (gateRun x a sys) := by
  induction a generalizing sys with
  | nil => rfl
  | cons o a ih => exact ih _

theorem swapComplete_stays_signaled [LinearOrder F] (x : Externals F V Q M D)
    (pre : List GateOp) (sys : System F V Q M D)
    (h : ∀ o ∈ pre, o ≠ GateOp.WaitUntilDataForANewFrameCanBeSubmitted)
    (hs : sys.gate.2 = true) : (gateRun x pre sys).gate.2 = true := by
  induction pre generalizing sys with
  | nil => exact hs
  | cons o pre ih =>
    refine ih _ (fun o1 ho1 => h o1 (List.mem_cons_of_mem _ ho1)) ?_
    rw [step_gate_fst]
    have ho := h o (List.mem_cons_self _ _)
    cases o with
    | WaitUntilDataForANewFrameCanBeSubmitted => exact absurd rfl ho
    | SignalThatAllDataForAFrameHasBeenSubmitted result => exact hs
    | RenderFrame signalResult =>
      simp only [GateOp.onGate]
      split_ifs <;> simp [hs]

theorem swapComplete_stays_unsignaled [LinearOrder F] (x : Externals F V Q M D)
    (mid : List GateOp) (sys : System F V Q M D)
    (h : GateEvent.consumerSwap true ∉ gateEvents x mid sys)
    (hs : sys.gate.2 = false) : (gateRun x mid sys).gate.2 = false := by
  induction mid generalizing sys with
  | nil => exact hs
  | cons o mid ih =>
    simp only [gateEvents, List.mem_cons, not_or] at h
    refine ih _ h.2 ?_
    have h1 := h.1
    rw [step_gate_snd] at h1
    rw [step_gate_fst]
    cases o with
    | WaitUntilDataForANewFrameCanBeSubmitted => rfl
    | SignalThatAllDataForAFrameHasBeenSubmitted result => exact hs
    | RenderFrame signalResult =>
      simp only [GateOp.onGate] at h1 ⊢
      split_ifs at h1 ⊢ with hg
      · cases signalResult
        · simp [hs]
        · exact absurd rfl h1
      · exact hs

theorem submissionComplete_stays_unsignaled [LinearOrder F] (x : Externals F V Q M D)
    (pre : List GateOp) (sys : System F V Q M D)
    (h : ∀ o ∈ pre, o ≠ GateOp.SignalThatAllDataForAFrameHasBeenSubmitted true)
    (hs : sys.gate.1 = false) :
    (gateRun x pre sys).gate.1 = false
    ∧ ∀ e ∈ gateEvents x pre sys, ∀ g, e ≠ GateEvent.consumerSwap g := by
  induction pre generalizing sys with
  | nil => exact ⟨hs, by simp [gateEvents]⟩
  | cons o pre ih =>
    have ho := h o (List.mem_cons_self _ _)
    have hstep : (o.step x sys).1.gate.1 = false
        ∧ ∀ g, (o.step x sys).2 ≠ GateEvent.consumerSwap g := by
      rw [step_gate_fst, step_gate_snd]
      cases o with
      | WaitUntilDataForANewFrameCanBeSubmitted => exact ⟨hs, fun g => by simp [GateOp.onGate]⟩
      | SignalThatAllDataForAFrameHasBeenSubmitted result =>
        cases result
        · exact ⟨by simp [GateOp.onGate, hs], fun g => by simp [GateOp.onGate]⟩
        · exact absurd rfl ho
      | RenderFrame signalResult =>
        simp [GateOp.onGate, hs]
    obtain ⟨h1, h2⟩ := ih _ (fun o1 ho1 => h o1 (List.mem_cons_of_mem _ ho1)) hstep.1
    refine ⟨h1, ?_⟩
    intro e he g
    simp only [gateEvents, List.mem_cons] at he
    rcases he with rfl | he
    · exact hstep.2 g
    · exact h2 e he g

theorem alternates_of_protocol [LinearOrder F] (x : Externals F V Q M D)
    (ops : List GateOp) (sys : System F V Q M D) (holds producerNext : Bool)
    (hp : followsProducerProtocol x holds ops sys = true)
    (h1 : producerNext = true → holds = false ∧ sys.gate.1 = false)
    (h2 : producerNext = false → sys.gate.2 = false ∧ (sys.gate.1 = true → holds = false)) :
    alternates producerNext (gateEvents x ops sys) = true := by
  induction ops generalizing sys holds producerNext with
  | nil => rfl
  | cons o ops ih =>
    have hg := step_gate_fst x o sys
    have he := step_gate_snd x o sys
    rcases hgate : sys.gate with ⟨a, b⟩
    rw [hgate] at hg he h1 h2
    simp only at h1 h2
    simp only [gateEvents]
    cases o with
    | WaitUntilDataForANewFrameCanBeSubmitted =>
      simp only [followsProducerProtocol] at hp
      rw [he] at hp ⊢
      simp only [GateOp.onGate] at hg hp ⊢
      cases b
      · -- the wait fails
        simp only [alternates]
        refine ih _ _ _ hp ?_ ?_
        · intro hn; rw [hg]; exact ⟨by simp [(h1 hn).1], (h1 hn).2⟩
        · intro hn; rw [hg]
          exact ⟨rfl, fun ha => by simp [(h2 hn).2 ha]⟩
      · -- the wait succeeds
        cases producerNext
        · exact absurd (h2 rfl).1 (by simp)
        · simp only [alternates, Bool.true_and]
          refine ih _ _ _ hp (by simp) ?_
          intro _; rw [hg]
          refine ⟨rfl, fun ha => ?_⟩
          have h3 := (h1 rfl).2
          simp only at ha
          rw [h3] at ha
          exact absurd ha (by simp)
    | SignalThatAllDataForAFrameHasBeenSubmitted result =>
      simp only [followsProducerProtocol, Bool.and_eq_true] at hp
      rw [he]
      simp only [GateOp.onGate, alternates] at hg ⊢
      refine ih _ _ _ hp.2 ?_ ?_
      · intro hn; exact absurd hp.1 (by rw [(h1 hn).1]; simp)
      · intro hn; rw [hg]
        exact ⟨(h2 hn).1, fun _ => rfl⟩
    | RenderFrame signalResult =>
      simp only [followsProducerProtocol] at hp
      rw [he]
      simp only [GateOp.onGate] at hg ⊢
      cases a
      · -- the wait is not released
        simp only [Bool.false_eq_true, if_false, alternates] at hg ⊢
        refine ih _ _ _ hp ?_ ?_
        · intro hn; rw [hg]; exact ⟨(h1 hn).1, rfl⟩
        · intro hn; rw [hg]; exact ⟨(h2 hn).1, fun ha => absurd ha (by simp)⟩
      · -- the wait is released: swap
        simp only [if_true] at hg ⊢
        cases producerNext
        · simp only [alternates, Bool.not_false, Bool.true_and]
          refine ih _ _ _ hp ?_ (by simp)
          intro _; rw [hg]
          exact ⟨(h2 rfl).2 rfl, rfl⟩
        · exact absurd (h1 rfl).2 (by simp)

theorem initialSystem_gate (d0 d1 : sDataRequiredToRenderAFrame F V Q M D) :
    (initialSystem d0 d1).gate = (false, true) := rfl

theorem wait_step_of_gate [LinearOrder F] (x : Externals F V Q M D) (sys : System F V Q M D) :
    (GateOp.WaitUntilDataForANewFrameCanBeSubmitted.step x sys).2
        = GateEvent.producerWait sys.gate.2
    ∧ (GateOp.WaitUntilDataForANewFrameCanBeSubmitted.step x sys).1.gate.2 = false := by
  have h1 := step_gate_fst x GateOp.WaitUntilDataForANewFrameCanBeSubmitted sys
  have h2 := step_gate_snd x GateOp.WaitUntilDataForANewFrameCanBeSubmitted sys
  rw [h1, h2]
  exact ⟨rfl, rfl⟩

theorem RenderFrameWithEvents_eq_none [LinearOrder F] (x : Externals F V Q M D) (g : Bool)
    (sys : System F V Q M D) (h : sys.gate.1 = false) :
    RenderFrameWithEvents x g sys = none := by
  have h1 : sys.s_whenAllDataHasBeenSubmittedFromApplicationThread.signaled = false := h
  simp [RenderFrameWithEvents, WaitForEvent, h1]

/-- C14 (amended): with the two events modelled as auto-reset binary signals and
initialised as `Initialize` does, for every sequence of calls of the handshake:
the first `WaitUntilDataForANewFrameCanBeSubmitted` succeeds and leaves
`SwapComplete` unsignaled; after a producer wait, a further one made with no
`RenderFrame` swap-and-signal in between does not succeed; before a successful
`SignalThatAllDataForAFrameHasBeenSubmitted` the wait of `RenderFrame` is not
released and no swap happens; and when the producer calls
`SignalThatAllDataForAFrameHasBeenSubmitted` only while it holds a window (after
a successful wait, once per wait), the successful producer waits and the
consumer swaps alternate, starting with the producer. -/
theorem handshake_alternates_under_producer_protocol [LinearOrder F]
    (x : Externals F V Q M D) (d0 d1 : sDataRequiredToRenderAFrame F V Q M D) :
    (∀ pre : List GateOp,
      (∀ o ∈ pre, o ≠ GateOp.WaitUntilDataForANewFrameCanBeSubmitted) →
      (GateOp.WaitUntilDataForANewFrameCanBeSubmitted.step x
          (gateRun x pre (initialSystem d0 d1))).2 = GateEvent.producerWait true
      ∧ (GateOp.WaitUntilDataForANewFrameCanBeSubmitted.step x
          (gateRun x pre (initialSystem d0 d1))).1.gate.2 = false)
    ∧ (∀ (sys : System F V Q M D) (mid : List GateOp),
      GateEvent.consumerSwap true ∉ gateEvents x mid
          (GateOp.WaitUntilDataForANewFrameCanBeSubmitted.step x sys).1 →
      (GateOp.WaitUntilDataForANewFrameCanBeSubmitted.step x
          (gateRun x mid (GateOp.WaitUntilDataForANewFrameCanBeSubmitted.step x sys).1)).2
        = GateEvent.producerWait false)
    ∧ (∀ (pre : List GateOp) (signalResult : Bool),
      (∀ o ∈ pre, o ≠ GateOp.SignalThatAllDataForAFrameHasBeenSubmitted true) →
      RenderFrameWithEvents x signalResult (gateRun x pre (initialSystem d0 d1)) = none
      ∧ ∀ e ∈ gateEvents x pre (initialSystem d0 d1), ∀ g, e ≠ GateEvent.consumerSwap g)
    ∧ (∀ ops : List GateOp,
      followsProducerProtocol x false ops (initialSystem d0 d1) = true →
      alternates true (gateEvents x ops (initialSystem d0 d1)) = true) := by
  refine ⟨fun pre h => ?_, fun sys mid h => ?_, fun pre g h => ?_, fun ops h => ?_⟩
  · have hs := swapComplete_stays_signaled x pre (initialSystem d0 d1) h rfl
    have hw := wait_step_of_gate x (gateRun x pre (initialSystem d0 d1))
    rw [hs] at hw
    exact hw
  · have hs := swapComplete_stays_unsignaled x mid _ h (wait_step_of_gate x sys).2
    have hw := wait_step_of_gate x
      (gateRun x mid (GateOp.WaitUntilDataForANewFrameCanBeSubmitted.step x sys).1)
    rw [hs] at hw
    exact hw.1
  · have hs := submissionComplete_stays_unsignaled x pre (initialSystem d0 d1) h rfl
    exact ⟨RenderFrameWithEvents_eq_none x g _ hs.1, hs.2⟩
  · exact alternates_of_protocol x ops (initialSystem d0 d1) false true h
      (fun _ => ⟨rfl, rfl⟩) (fun hn => absurd hn (by simp))

/-- C14 (witness): producer wait, signal, `RenderFrame`, producer wait, signal,
`RenderFrame` keeps to the producer protocol, and its successful waits and
swaps alternate; a second producer wait right after the first does not succeed;
a `RenderFrame` after a producer wait alone is not released. -/
theorem handshake_alternates_under_producer_protocol_witness :
    ((∀ o ∈ [GateOp.SignalThatAllDataForAFrameHasBeenSubmitted false],
        o ≠ GateOp.WaitUntilDataForANewFrameCanBeSubmitted)
      ∧ (GateOp.WaitUntilDataForANewFrameCanBeSubmitted.step exampleExternals
          (gateRun exampleExternals [GateOp.SignalThatAllDataForAFrameHasBeenSubmitted false]
            (initialSystem exampleFrame exampleFrame))).2 = GateEvent.producerWait true)
    ∧ (GateEvent.consumerSwap true ∉ gateEvents exampleExternals
          [GateOp.SignalThatAllDataForAFrameHasBeenSubmitted true]
          (GateOp.WaitUntilDataForANewFrameCanBeSubmitted.step exampleExternals
            (initialSystem exampleFrame exampleFrame)).1
      ∧ (GateOp.WaitUntilDataForANewFrameCanBeSubmitted.step exampleExternals
          (gateRun exampleExternals [GateOp.SignalThatAllDataForAFrameHasBeenSubmitted true]
            (GateOp.WaitUntilDataForANewFrameCanBeSubmitted.step exampleExternals
              (initialSystem exampleFrame exampleFrame)).1)).2
        = GateEvent.producerWait false)
    ∧ ((∀ o ∈ [GateOp.WaitUntilDataForANewFrameCanBeSubmitted],
        o ≠ GateOp.SignalThatAllDataForAFrameHasBeenSubmitted true)
      ∧ RenderFrameWithEvents exampleExternals true
          (gateRun exampleExternals [GateOp.WaitUntilDataForANewFrameCanBeSubmitted]
            (initialSystem exampleFrame exampleFrame)) = none)
    ∧ (followsProducerProtocol exampleExternals false
          [GateOp.WaitUntilDataForANewFrameCanBeSubmitted,
            GateOp.SignalThatAllDataForAFrameHasBeenSubmitted true, GateOp.RenderFrame true,
            GateOp.WaitUntilDataForANewFrameCanBeSubmitted,
            GateOp.SignalThatAllDataForAFrameHasBeenSubmitted true, GateOp.RenderFrame true]
          (initialSystem exampleFrame exampleFrame) = true
      ∧ alternates true (gateEvents exampleExternals
          [GateOp.WaitUntilDataForANewFrameCanBeSubmitted,
            GateOp.SignalThatAllDataForAFrameHasBeenSubmitted true, GateOp.RenderFrame true,
            GateOp.WaitUntilDataForANewFrameCanBeSubmitted,
            GateOp.SignalThatAllDataForAFrameHasBeenSubmitted true, GateOp.RenderFrame true]
          (initialSystem exampleFrame exampleFrame)) = true) :=
  ⟨⟨by decide,
      ((handshake_alternates_under_producer_protocol exampleExternals exampleFrame
        exampleFrame).1 _ (by decide)).1⟩,
    ⟨by decide,
      (handshake_alternates_under_producer_protocol exampleExternals exampleFrame
        exampleFrame).2.1 _ _ (by decide)⟩,
    ⟨by decide,
      ((handshake_alternates_under_producer_protocol exampleExternals exampleFrame
        exampleFrame).2.2.1 _ true (by decide)).1⟩,
    ⟨by decide,
      (handshake_alternates_under_producer_protocol exampleExternals exampleFrame
        exampleFrame).2.2.2 _ (by decide)⟩⟩

/-- C14 (counterexample): the producer calls
`SignalThatAllDataForAFrameHasBeenSubmitted` without having waited, and
`RenderFrame` follows, twice over.  Both consumer waits are released, so the
first handshake is a consumer swap and two consumer swaps follow one another
with no successful producer wait between them: the successful producer waits
and the consumer swaps do not alternate starting with the producer. -/
theorem handshake_does_not_alternate_after_early_signal :
    gateEvents exampleExternals
        [GateOp.SignalThatAllDataForAFrameHasBeenSubmitted true, GateOp.RenderFrame true,
          GateOp.SignalThatAllDataForAFrameHasBeenSubmitted true, GateOp.RenderFrame true,
          GateOp.WaitUntilDataForANewFrameCanBeSubmitted]
        (initialSystem exampleFrame exampleFrame)
      = [GateEvent.producerSignal true, GateEvent.consumerSwap true,
          GateEvent.producerSignal true, GateEvent.consumerSwap true,
          GateEvent.producerWait true]
    ∧ alternates true (gateEvents exampleExternals
        [GateOp.SignalThatAllDataForAFrameHasBeenSubmitted true, GateOp.RenderFrame true,
          GateOp.SignalThatAllDataForAFrameHasBeenSubmitted true, GateOp.RenderFrame true,
          GateOp.WaitUntilDataForANewFrameCanBeSubmitted]
        (initialSystem exampleFrame exampleFrame)) = false := by
  refine ⟨by decide, by decide⟩

end Model

end Graphics
end eae6320
